import Mathlib

/-!
Verification of the ooresults card-reader ingestion state machine, entry
orchestration and series aggregation against their natural-language
specification.

The development shallowly embeds `ooresults/model/results.py` and
`ooresults/model/entries.py`.  The relational store (`ooresults/repo`) and
the result-computation engine (`ooresults/otypes/result_type.py`) are not
part of the sources; the store is modelled from the specification of the
store interface, and the result engine is kept abstract as a parameter
(`ResultEngine`), with the two SI-comparison helpers the ingestion code
needs modelled from the specification's own definitions.
-/

namespace OOR

/-- Timestamps are modelled as integer seconds. -/
abbrev Time := Int

/-- Split-time status (`SpStatus` in the data model). -/
inductive SpStatus where
  | ok
  | missing
  | additional
  | unordered
  deriving DecidableEq, Repr

/-- Result status (`ResultStatus` in the data model). -/
inductive ResultStatus where
  | inactive
  | active
  | finished
  | ok
  | missing_punch
  | did_not_start
  | did_not_finish
  | disqualified
  | over_time
  deriving DecidableEq, Repr

/-- Class parameters (`ClassParams`): configuration of the result engine.
The ingestion code only constructs the default value and passes parameters
through, so the fields are carried opaquely. -/
structure ClassParams where
  otype : String := "standard"
  voided_legs : List (String × String) := []
  apply_handicap : Bool := false
  time_limit : Option Int := none
  deriving DecidableEq, Repr

instance : Inhabited ClassParams := ⟨{}⟩

/-- A split time (`SplitTime`). -/
structure SplitTime where
  control_code : String
  punch_time : Option Time := none
  si_punch_time : Option Time := none
  time : Option Int := none
  status : Option SpStatus := none
  leg_voided : Bool := false
  deriving DecidableEq, Repr

/-- The `extensions` dictionary of a result; the embedded code only ever
reads the key `running_time`. -/
structure Extensions where
  running_time : Option Int := none
  deriving DecidableEq, Repr

/-- A person's race result (`PersonRaceResult`). -/
structure PersonRaceResult where
  status : ResultStatus := ResultStatus.inactive
  start_time : Option Time := none
  finish_time : Option Time := none
  punched_start_time : Option Time := none
  punched_finish_time : Option Time := none
  si_punched_start_time : Option Time := none
  si_punched_finish_time : Option Time := none
  punched_clear_time : Option Time := none
  punched_check_time : Option Time := none
  time : Option Int := none
  split_times : List SplitTime := []
  extensions : Extensions := {}
  deriving DecidableEq, Repr

/-- A scheduled start (`PersonRaceStart`). -/
structure PersonRaceStart where
  start_time : Option Time := none
  deriving DecidableEq, Repr

instance : Inhabited PersonRaceStart := ⟨{}⟩

/-- `result.extensions.get ("running_time", result.time)`: the value
reported as `time` in ingestion responses. -/
def reported_time (r : PersonRaceResult) : Option Int :=
  match r.extensions.running_time with
  | some v => some v
  | none => r.time

/-- Multiset equality of two lists of SI punches, decided by counting.
Modelled from the spec: two results are SI-equivalent iff ... the multiset
of `(control_code, si_punch_time)` across splits are equal. -/
def bag_eq (a b : List (String × Option Time)) : Bool :=
  a.length == b.length
    && a.all (fun x => a.count x == b.count x)
    && b.all (fun x => a.count x == b.count x)

/-- Modelled from the spec: `same_si_punches` lives in
`otypes/result_type.py`, which is not under the sources.  Two results are
SI-equivalent iff their `si_punched_start_time`, `si_punched_finish_time`,
and the multiset of `(control_code, si_punch_time)` across splits are
equal. -/
def same_si_punches (a b : PersonRaceResult) : Bool :=
  a.si_punched_start_time == b.si_punched_start_time
    && a.si_punched_finish_time == b.si_punched_finish_time
    && bag_eq (a.split_times.map fun s => (s.control_code, s.si_punch_time))
        (b.split_times.map fun s => (s.control_code, s.si_punch_time))

/-- Modelled from the spec: `has_punches` lives in
`otypes/result_type.py`, which is not under the sources.  A result has
punches iff it records any split or a punched start or finish time. -/
def has_punches (r : PersonRaceResult) : Bool :=
  !r.split_times.isEmpty
    || r.punched_start_time.isSome
    || r.punched_finish_time.isSome

/-- The local helper `missing_controls` of
`store_cardreader_result` / `assign_name_to_light_entry`
(`ooresults/model/results.py`). -/
def missing_controls (r : PersonRaceResult) : List String :=
  if r.finish_time.isNone then ["FINISH"]
  else if r.start_time.isNone then ["START"]
  else (r.split_times.filter fun sp => sp.status == some SpStatus.missing).map
    (fun sp => sp.control_code)

/-- The result-computation engine.  `compute_result` and `reset` are
implemented in `otypes/result_type.py`, which is not under the sources;
the embedded model functions take them as parameters.  The argument order
of `compute_result` is `(result, controls, class_params, start_time, year,
gender)`, mirroring the call sites. -/
structure ResultEngine where
  compute_result : PersonRaceResult → List String → ClassParams →
    Option Time → Option Int → Option String → PersonRaceResult
  reset : PersonRaceResult → PersonRaceResult

/-- A competitor row. -/
structure CompetitorType where
  id : Nat
  first_name : String
  last_name : String
  club_id : Option Nat := none
  gender : String := ""
  year : Option Int := none
  chip : String := ""
  deriving DecidableEq, Repr

/-- An event row. -/
structure EventType where
  id : Nat
  name : String := ""
  date : Int := 0
  key : Option String := none
  publish : Bool := false
  series : Option String := none
  fields : List String := []
  light : Bool := false
  deriving DecidableEq, Repr

/-- A course row. -/
structure CourseType where
  id : Nat
  event_id : Nat
  name : String := ""
  length : Option Int := none
  climb : Option Int := none
  controls : List String := []
  deriving DecidableEq, Repr

/-- A class row (`ClassType`). -/
structure ClassType where
  id : Nat
  event_id : Nat
  name : String := ""
  short_name : Option String := none
  course_id : Option Nat := none
  params : ClassParams := {}
  deriving DecidableEq, Repr

/-- An entry row as returned by the store (`EntryType`), with the joined
competitor, class and club columns denormalised onto the row. -/
structure EntryType where
  id : Nat
  event_id : Nat
  competitor_id : Option Nat := none
  first_name : Option String := none
  last_name : Option String := none
  gender : Option String := none
  year : Option Int := none
  class_id : Option Nat := none
  class_name : Option String := none
  club_id : Option Nat := none
  club_name : Option String := none
  not_competing : Bool := false
  chip : Option String := none
  fields : List (Nat × String) := []
  result : PersonRaceResult := {}
  start : PersonRaceStart := {}
  deriving DecidableEq, Repr

/-- Modelled from the spec: the abstract transactional store (spec section
"Store interface").  The concrete repository (`ooresults/repo`) is not
under the sources; the store is a record of tables plus id counters. -/
structure Db where
  events : List EventType := []
  courses : List CourseType := []
  classes : List ClassType := []
  competitors : List CompetitorType := []
  entries : List EntryType := []
  next_entry_id : Nat := 1
  next_competitor_id : Nat := 1
  deriving DecidableEq, Repr

namespace Db

/-- Modelled from the spec: `get_events`. -/
def get_events (db : Db) : List EventType := db.events

/-- Modelled from the spec: `get_entries (event_id)`. -/
def get_entries (db : Db) (event_id : Nat) : List EntryType :=
  db.entries.filter (fun e => e.event_id == event_id)

/-- Modelled from the spec: `get_entry (id)`; a missing row is `none`
(the concrete store raises a not-found error). -/
def get_entry (db : Db) (id : Nat) : Option EntryType :=
  db.entries.find? (fun e => e.id == id)

/-- Modelled from the spec: `get_class (id)`; the model code may pass a
null id, which never matches a row. -/
def get_class (db : Db) (id : Option Nat) : Option ClassType :=
  id.bind (fun i => db.classes.find? (fun c => c.id == i))

/-- Modelled from the spec: `get_classes (event_id)`. -/
def get_classes (db : Db) (event_id : Nat) : List ClassType :=
  db.classes.filter (fun c => c.event_id == event_id)

/-- Modelled from the spec: `get_course (id)`; the model code may pass a
null id, which never matches a row. -/
def get_course (db : Db) (id : Option Nat) : Option CourseType :=
  id.bind (fun i => db.courses.find? (fun c => c.id == i))

/-- Modelled from the spec: `get_competitor (id)`. -/
def get_competitor (db : Db) (id : Nat) : Option CompetitorType :=
  db.competitors.find? (fun c => c.id == id)

/-- Modelled from the spec: `get_competitor_by_chip (chip)`; a null chip
matches no competitor. -/
def get_competitor_by_chip (db : Db) (chip : Option String) : Option CompetitorType :=
  chip.bind (fun c => db.competitors.find? (fun cm => cm.chip == c))

/-- Modelled from the spec: `get_competitor_by_name (first_name, last_name)`. -/
def get_competitor_by_name (db : Db) (first_name last_name : String) :
    Option CompetitorType :=
  db.competitors.find? (fun cm =>
    cm.first_name == first_name && cm.last_name == last_name)

/-- Modelled from the spec: `add_competitor`; returns the fresh id. -/
def add_competitor (db : Db) (first_name last_name : String)
    (club_id : Option Nat) (gender : String) (year : Option Int)
    (chip : String) : Db × Nat :=
  let cid := db.next_competitor_id
  ({ db with
      competitors := db.competitors ++
        [{ id := cid, first_name := first_name, last_name := last_name,
           club_id := club_id, gender := gender, year := year, chip := chip }],
      next_competitor_id := cid + 1 }, cid)

/-- Modelled from the spec: `update_competitor`. -/
def update_competitor (db : Db) (id : Nat) (first_name last_name : String)
    (gender : String) (year : Option Int) (club_id : Option Nat)
    (chip : String) : Db :=
  { db with
      competitors := db.competitors.map (fun cm =>
        if cm.id == id then
          { cm with first_name := first_name, last_name := last_name,
                    gender := gender, year := year, club_id := club_id,
                    chip := chip }
        else cm) }

/-- Build an entry row, filling the denormalised joined columns from the
current tables. -/
def mk_entry (db : Db) (id event_id : Nat) (competitor_id : Option Nat)
    (class_id : Option Nat) (club_id : Option Nat) (not_competing : Bool)
    (chip : Option String) (fields : List (Nat × String))
    (result : PersonRaceResult) (start : PersonRaceStart) : EntryType :=
  let com := competitor_id.bind (fun cid => db.get_competitor cid)
  { id := id, event_id := event_id, competitor_id := competitor_id,
    first_name := com.map (fun c => c.first_name),
    last_name := com.map (fun c => c.last_name),
    gender := com.map (fun c => c.gender),
    year := com.bind (fun c => c.year),
    class_id := class_id,
    class_name := (db.get_class class_id).map (fun c => c.name),
    club_id := club_id,
    club_name := club_id.bind (fun _ => none),
    not_competing := not_competing, chip := chip, fields := fields,
    result := result, start := start }

/-- Modelled from the spec: `add_entry`; inserts an assigned entry and
returns the fresh id. -/
def add_entry (db : Db) (event_id : Nat) (competitor_id : Option Nat)
    (class_id : Option Nat) (club_id : Option Nat) (not_competing : Bool)
    (chip : Option String) (fields : List (Nat × String))
    (result : PersonRaceResult) (start : PersonRaceStart) : Db × Nat :=
  let eid := db.next_entry_id
  ({ db with
      entries := db.entries ++
        [db.mk_entry eid event_id competitor_id class_id club_id
          not_competing chip fields result start],
      next_entry_id := eid + 1 }, eid)

/-- Modelled from the spec: `add_entry_result`; inserts an unassigned
entry (no competitor, no class) holding a read-out result. -/
def add_entry_result (db : Db) (event_id : Nat) (chip : Option String)
    (result : PersonRaceResult) (start : PersonRaceStart) : Db × Nat :=
  db.add_entry event_id none none none false chip [] result start

/-- Modelled from the spec: `update_entry`; rewrites the registration
columns of an entry and re-derives the joined columns. -/
def update_entry (db : Db) (id : Nat) (class_id : Option Nat)
    (club_id : Option Nat) (not_competing : Bool) (chip : Option String)
    (fields : List (Nat × String)) (result : PersonRaceResult)
    (start : PersonRaceStart) : Db :=
  { db with
      entries := db.entries.map (fun e =>
        if e.id == id then
          { e with class_id := class_id,
                   class_name := (db.get_class class_id).map (fun c => c.name),
                   club_id := club_id, not_competing := not_competing,
                   chip := chip, fields := fields, result := result,
                   start := start }
        else e) }

/-- Modelled from the spec: `update_entry_result`; rewrites chip, result
and start of an entry. -/
def update_entry_result (db : Db) (id : Nat) (chip : Option String)
    (result : PersonRaceResult) (start : PersonRaceStart) : Db :=
  { db with
      entries := db.entries.map (fun e =>
        if e.id == id then
          { e with chip := chip, result := result, start := start }
        else e) }

/-- Modelled from the spec: `delete_entry`. -/
def delete_entry (db : Db) (id : Nat) : Db :=
  { db with entries := db.entries.filter (fun e => !(e.id == id)) }

/-- Modelled from the spec: `get_event (id)`. -/
def get_event (db : Db) (id : Nat) : Option EventType :=
  db.events.find? (fun e => e.id == id)

/-- Modelled from the spec: the store's `import_entries (event_id,
entries)` inserts the supplied entry rows into the event (store
interface; the entry import contract is an iterator of entry rows). -/
def import_entries (db : Db) (event_id : Nat) (entries : List EntryType) :
    Db :=
  { db with
      entries := db.entries ++
        entries.map (fun e => { e with event_id := event_id }) }

/-- Modelled from the spec: `delete_entries (event_id)` removes every
entry of the event. -/
def delete_entries (db : Db) (event_id : Nat) : Db :=
  { db with entries := db.entries.filter (fun e => !(e.event_id == event_id)) }

/-- Modelled from the spec: `delete_classes (event_id)` removes every
class of the event. -/
def delete_classes (db : Db) (event_id : Nat) : Db :=
  { db with classes := db.classes.filter (fun c => !(c.event_id == event_id)) }

end Db

/-- A card-reader message (`CardReaderMessage`). -/
structure CardReaderMessage where
  entry_type : String
  entry_time : Time
  control_card : Option String := none
  result : Option PersonRaceResult := none
  deriving DecidableEq, Repr

/-- An ingestion response dictionary.  Every key is optional; `none`
stands for an absent or null key, except for `missingControls`, where
`none` is an absent key and `some []` an empty list value. -/
structure Response where
  entryTime : Option Time := none
  eventId : Option Nat := none
  controlCard : Option String := none
  firstName : Option String := none
  lastName : Option String := none
  club : Option String := none
  class_name : Option String := none
  status : Option ResultStatus := none
  time : Option Int := none
  error : Option String := none
  missingControls : Option (List String) := none
  light_status : Option String := none
  deriving DecidableEq, Repr

/-- Cache and transaction events observable during a model operation, in
program order.  `clear_cache` records a call to
`cached_result.clear_cache`; `commit` marks the end of the enclosing
store transaction. -/
inductive CacheEvent where
  | clear_cache (event_id : Option Nat) (entry_id : Option Nat)
  | commit
  deriving DecidableEq, Repr

/-- Errors raised by the embedded model operations. -/
inductive StoreError where
  | event_not_found
  | key_error
  | index_error
  | constraint_error (msg : String)
  | type_error
  deriving DecidableEq, Repr

/-- Modelled from the spec: the store's transaction scope (not under the
sources).  The body runs against the current state; on success its state,
value and event trace are committed, with the commit marking the end of
the scope; on an exception the state is rolled back unchanged. -/
def run_transaction (db : Db) {α : Type}
    (body : Except StoreError (Db × α × List CacheEvent)) :
    Db × Except StoreError α × List CacheEvent :=
  match body with
  | .ok (db2, a, tr) => (db2, .ok a, tr ++ [CacheEvent.commit])
  | .error e => (db, .error e, [])

/-- The event-resolution loop shared by `store_cardreader_result`,
`assign_name_to_light_entry` and `import_iof_result_list`: the first
event whose key equals the given key, provided the given key is
non-empty. -/
def find_event (db : Db) (event_key : String) : Option EventType :=
  db.events.find? (fun e => event_key != "" && e.key == some event_key)

/-- Python truthiness of `competitor.year`: `int (competitor.year) if
competitor.year else None` maps both a null and a zero year to null. -/
def truthy_year (year : Option Int) : Option Int :=
  match year with
  | some y => if y == 0 then none else some y
  | none => none

/-- The light-mode course-matching loop (`store_cardreader_result`,
Step C, and `assign_name_to_light_entry`, step 5): every class of the
event with a resolvable course whose recomputation of an independent copy
of the result yields status OK, with the recomputed result. -/
def light_matching (eng : ResultEngine) (db : Db) (event_id : Nat)
    (result : PersonRaceResult) (competitor : CompetitorType) :
    List (ClassType × PersonRaceResult) :=
  (db.get_classes event_id).filterMap (fun cls =>
    match cls.course_id with
    | none => none
    | some cid =>
      match db.get_course (some cid) with
      | none => none
      | some course =>
        let r := eng.compute_result result course.controls cls.params
          none (truthy_year competitor.year) (some competitor.gender)
        if r.status == ResultStatus.ok then some (cls, r) else none)

/-- The light-mode Step E / unassigned insertion shared by the unknown
chip and ambiguous match branches: recompute with empty controls and
insert an unassigned entry. -/
def light_unassigned (eng : ResultEngine) (event : EventType)
    (control_card : Option String) (result : PersonRaceResult) (db : Db) :
    Db × PersonRaceResult :=
  let r2 := eng.compute_result result [] {} none none none
  ((db.add_entry_result event.id control_card r2 {}).1, r2)

/-- The light-mode `cardRead` branch of `store_cardreader_result`
(`ooresults/model/results.py`). -/
def light_card_read (eng : ResultEngine) (event : EventType)
    (item : CardReaderMessage) (result : PersonRaceResult) (db : Db) :
    Db × Response × List CacheEvent :=
  let entries := db.get_entries event.id
  let entries_with_chip := entries.filter (fun e => e.chip == item.control_card)
  if !entries_with_chip.isEmpty then
    (db,
     { entryTime := some item.entry_time, eventId := some event.id,
       controlCard := item.control_card, status := some result.status,
       light_status := some "second_reading" }, [])
  else
    match db.get_competitor_by_chip item.control_card with
    | none =>
      let (db2, r2) := light_unassigned eng event item.control_card result db
      (db2,
       { entryTime := some item.entry_time, eventId := some event.id,
         controlCard := item.control_card, status := some r2.status,
         error := some "Control card unknown",
         light_status := some "unassigned" }, [])
    | some competitor =>
      match light_matching eng db event.id result competitor with
      | [(cls, matched_result)] =>
        let (db2, entry_id) := db.add_entry event.id (some competitor.id)
          (some cls.id) competitor.club_id false item.control_card []
          matched_result {}
        match db2.get_entry entry_id with
        | none => (db2, {}, [])
        | some entry =>
          (db2,
           { entryTime := some item.entry_time, eventId := some event.id,
             controlCard := entry.chip, firstName := entry.first_name,
             lastName := entry.last_name, club := entry.club_name,
             class_name := entry.class_name,
             status := some matched_result.status,
             time := reported_time matched_result,
             missingControls := some (missing_controls matched_result),
             light_status := some "ok_registered" },
           [CacheEvent.clear_cache (some event.id) (some entry_id)])
      | _ =>
        let (db2, r2) := light_unassigned eng event item.control_card result db
        (db2,
         { entryTime := some item.entry_time, eventId := some event.id,
           controlCard := item.control_card, status := some r2.status,
           error := some "No unique matching course",
           light_status := some "unassigned" }, [])

/-- The merge condition of the standard-mode branch: exactly one assigned
entry without punches, and no unassigned entry or exactly one with the
same SI punches. -/
def merge_condition (assigned_entries unassigned_entries : List EntryType)
    (result : PersonRaceResult) : Bool :=
  match assigned_entries with
  | [entry] =>
    !(has_punches entry.result)
      && (match unassigned_entries with
          | [] => true
          | [u] => same_si_punches u.result result
          | _ => false)
  | _ => false

/-- The standard-mode fallback: insert a new unassigned entry (unless an
unassigned entry with the same SI punches exists) and pick the error
message by the number of assigned entries. -/
def standard_unassigned (eng : ResultEngine) (event : EventType)
    (item : CardReaderMessage) (result : PersonRaceResult)
    (assigned_count : Nat) (unassigned_entry : Option EntryType) (db : Db) :
    Db × Response × List CacheEvent :=
  let r2 := eng.compute_result result [] {} none none none
  let db2 :=
    match unassigned_entry with
    | none => (db.add_entry_result event.id item.control_card r2 {}).1
    | some _ => db
  let err :=
    if assigned_count == 0 then "Control card unknown"
    else if 2 ≤ assigned_count then "There are several entries for this card"
    else "There are other results for this card"
  (db2,
   { entryTime := some item.entry_time, eventId := some event.id,
     controlCard := item.control_card, status := some r2.status,
     error := some err }, [])

/-- The entries of the event whose chip equals the message's control
card. -/
def entries_for_card (db : Db) (event_id : Nat)
    (control_card : Option String) : List EntryType :=
  (db.get_entries event_id).filter (fun e => e.chip == control_card)

/-- The assigned entries (class set) among `entries_for_card`. -/
def assigned_for_card (db : Db) (event_id : Nat)
    (control_card : Option String) : List EntryType :=
  (entries_for_card db event_id control_card).filter
    (fun e => e.class_name.isSome)

/-- The unassigned entries (class unset) among `entries_for_card`. -/
def unassigned_for_card (db : Db) (event_id : Nat)
    (control_card : Option String) : List EntryType :=
  (entries_for_card db event_id control_card).filter
    (fun e => e.class_name.isNone)

/-- The standard-mode `cardRead` branch of `store_cardreader_result`
(`ooresults/model/results.py`). -/
def standard_card_read (eng : ResultEngine) (event : EventType)
    (item : CardReaderMessage) (result : PersonRaceResult) (db : Db) :
    Db × Response × List CacheEvent :=
  let assigned_entries := assigned_for_card db event.id item.control_card
  let unassigned_entries := unassigned_for_card db event.id item.control_card
  match assigned_entries.find? (fun e => same_si_punches e.result result) with
  | some entry =>
    (db,
     { entryTime := some item.entry_time, eventId := some event.id,
       controlCard := entry.chip, firstName := entry.first_name,
       lastName := entry.last_name, club := entry.club_name,
       class_name := entry.class_name, status := some entry.result.status,
       time := reported_time entry.result,
       missingControls := some (missing_controls entry.result) }, [])
  | none =>
    let unassigned_entry :=
      unassigned_entries.find? (fun e => same_si_punches e.result result)
    match assigned_entries with
    | [entry] =>
      if merge_condition assigned_entries unassigned_entries result then
        let (controls, class_params) :=
          match db.get_class entry.class_id with
          | some cls =>
            match db.get_course cls.course_id with
            | some course => (course.controls, cls.params)
            | none => (([] : List String), ({} : ClassParams))
          | none => (([] : List String), ({} : ClassParams))
        let r2 := eng.compute_result result controls class_params
          entry.start.start_time entry.year entry.gender
        let db2 := db.update_entry_result entry.id entry.chip r2 entry.start
        let db3 :=
          match unassigned_entry with
          | some u => if unassigned_entries == [u] then db2.delete_entry u.id else db2
          | none => db2
        (db3,
         { entryTime := some item.entry_time, eventId := some event.id,
           controlCard := entry.chip, firstName := entry.first_name,
           lastName := entry.last_name, club := entry.club_name,
           class_name := entry.class_name, status := some r2.status,
           time := reported_time r2,
           missingControls := some (missing_controls r2) },
         [CacheEvent.clear_cache (some event.id) (some entry.id)])
      else
        standard_unassigned eng event item result assigned_entries.length
          unassigned_entry db
    | _ =>
      standard_unassigned eng event item result assigned_entries.length
        unassigned_entry db

/-- The per-event part of `store_cardreader_result`, after the event has
been resolved (`ooresults/model/results.py`). -/
def store_found (eng : ResultEngine) (event : EventType)
    (item : CardReaderMessage) (db : Db) :
    Except StoreError (Db × Response × List CacheEvent) :=
  if event.light then
    if item.entry_type == "cardRead" then
      match item.result with
      | none => .error StoreError.type_error
      | some result => .ok (light_card_read eng event item result db)
    else if item.entry_type == "cardInserted" then
      .ok (db, { eventId := some event.id, controlCard := item.control_card }, [])
    else
      .ok (db, { eventId := some event.id }, [])
  else
    if item.entry_type == "cardRead" then
      match item.result with
      | none => .error StoreError.type_error
      | some result => .ok (standard_card_read eng event item result db)
    else if item.entry_type == "cardInserted" then
      .ok (db, { eventId := some event.id, controlCard := item.control_card }, [])
    else
      .ok (db, { eventId := some event.id }, [])

/-- The transaction body of `store_cardreader_result`
(`ooresults/model/results.py`). -/
def store_cardreader_result_body (eng : ResultEngine) (event_key : String)
    (item : CardReaderMessage) (db : Db) :
    Except StoreError (Db × (String × EventType × Response) × List CacheEvent) :=
  match find_event db event_key with
  | none => .error StoreError.event_not_found
  | some event =>
    (store_found eng event item db).map
      (fun v => (v.1, (item.entry_type, event, v.2.1), v.2.2))

/-- `store_cardreader_result (event_key, item)`
(`ooresults/model/results.py`): the whole operation runs inside one
IMMEDIATE transaction. -/
def store_cardreader_result (eng : ResultEngine) (event_key : String)
    (item : CardReaderMessage) (db : Db) :
    Db × Except StoreError (String × EventType × Response) × List CacheEvent :=
  run_transaction db (store_cardreader_result_body eng event_key item db)

/-- The per-event part of `assign_name_to_light_entry`, after the event
has been resolved (`ooresults/model/results.py`). -/
def assign_found (eng : ResultEngine) (event : EventType) (chip : String)
    (first_name last_name : String) (db : Db) :
    Except StoreError (Db × Response × List CacheEvent) :=
  let entries := db.get_entries event.id
  let entries_with_chip := entries.filter (fun e => e.chip == some chip)
  match entries_with_chip with
  | [] => .error StoreError.index_error
  | first :: _ =>
    let stored_result := first.result
    let db2 := entries_with_chip.foldl
      (fun (d : Db) (e : EntryType) => d.delete_entry e.id) db
    let (db3, competitor) :=
      match db2.get_competitor_by_name first_name last_name with
      | none =>
        let (d, cid) := db2.add_competitor first_name last_name none "" none chip
        (d, d.get_competitor cid)
      | some com =>
        let d := db2.update_competitor com.id com.first_name com.last_name
          com.gender com.year com.club_id chip
        (d, d.get_competitor com.id)
    match competitor with
    | none => .error StoreError.key_error
    | some competitor =>
      match light_matching eng db3 event.id stored_result competitor with
      | [(cls, matched_result)] =>
        let (db4, entry_id) := db3.add_entry event.id (some competitor.id)
          (some cls.id) competitor.club_id false (some chip) []
          matched_result {}
        match db4.get_entry entry_id with
        | none => .error StoreError.key_error
        | some entry =>
          .ok (db4,
            { eventId := some event.id, controlCard := entry.chip,
              firstName := entry.first_name, lastName := entry.last_name,
              club := entry.club_name, class_name := entry.class_name,
              status := some matched_result.status,
              time := reported_time matched_result,
              missingControls := some (missing_controls matched_result),
              light_status := some "ok_registered" },
            [CacheEvent.clear_cache (some event.id) (some entry_id)])
      | _ =>
        let r2 := eng.compute_result stored_result [] {} none none none
        let db4 := (db3.add_entry_result event.id (some chip) r2 {}).1
        .ok (db4,
          { eventId := some event.id, controlCard := some chip,
            status := some r2.status,
            error := some "No unique matching course",
            light_status := some "unassigned" }, [])

/-- The transaction body of `assign_name_to_light_entry`
(`ooresults/model/results.py`). -/
def assign_name_to_light_entry_body (eng : ResultEngine) (event_key : String)
    (chip : String) (first_name last_name : String) (db : Db) :
    Except StoreError (Db × (EventType × Response) × List CacheEvent) :=
  match find_event db event_key with
  | none => .error StoreError.event_not_found
  | some event =>
    (assign_found eng event chip first_name last_name db).map
      (fun v => (v.1, (event, v.2.1), v.2.2))

/-- `assign_name_to_light_entry (event_key, chip, first_name, last_name)`
(`ooresults/model/results.py`). -/
def assign_name_to_light_entry (eng : ResultEngine) (event_key : String)
    (chip : String) (first_name last_name : String) (db : Db) :
    Db × Except StoreError (EventType × Response) × List CacheEvent :=
  run_transaction db
    (assign_name_to_light_entry_body eng event_key chip first_name last_name db)

/-- The transaction body of `add_or_update_entry`
(`ooresults/model/entries.py`): the part shared by the add and the update
branch, from `old_status = result.status` to `update_entry_result`.
`result0` is the value the local variable `result` holds when the shared
part starts, `chip0` the value of `chip`. -/
def add_or_update_entry_tail (eng : ResultEngine) (gender : String)
    (year : Option Int) (class_id : Nat) (status : ResultStatus)
    (start_time : Option Time) (result_id : Option Int) (id : Nat)
    (result0 : PersonRaceResult) (chip0 : Option String) (db : Db) :
    Except StoreError (Db × Nat × List CacheEvent) :=
  let old_status := result0.status
  let step : Except StoreError (Db × PersonRaceResult × Option String) :=
    match result_id with
    | some (-1) => Except.ok (db, ({} : PersonRaceResult), chip0)
    | some rid =>
      match db.entries.find? (fun (e : EntryType) => (e.id : Int) == rid) with
      | none => .error (StoreError.constraint_error "Result deleted")
      | some result_entry =>
        .ok (db.delete_entry result_entry.id, result_entry.result,
             result_entry.chip)
    | none => Except.ok (db, result0, chip0)
  match step with
  | .error e => .error e
  | .ok (db2, result1, chip1) =>
    let result2 :=
      if result_id != some (-1) || status != old_status
          || status == ResultStatus.disqualified then
        { result1 with status := status }
      else result1
    let (controls, class_params) :=
      match db2.get_class (some class_id) with
      | some cls =>
        match db2.get_course cls.course_id with
        | some course => (course.controls, cls.params)
        | none => (([] : List String), ({} : ClassParams))
      | none => (([] : List String), ({} : ClassParams))
    let result3 := eng.compute_result result2 controls class_params
      start_time year (if gender == "" then none else some gender)
    let db3 := db2.update_entry_result id chip1 result3 { start_time := start_time }
    .ok (db3, id, [])

/-- The transaction body of `add_or_update_entry`
(`ooresults/model/entries.py`). -/
def add_or_update_entry_body (eng : ResultEngine) (id : Option Nat)
    (event_id : Nat) (competitor_id : Option Nat)
    (first_name last_name gender : String) (year : Option Int)
    (class_id : Nat) (club_id : Option Nat) (not_competing : Bool)
    (chip : String) (fields : List (Nat × String)) (status : ResultStatus)
    (start_time : Option Time) (result_id : Option Int) (db : Db) :
    Except StoreError (Db × Nat × List CacheEvent) :=
  match id with
  | none =>
    let (db1, competitor_id2, gender1, year1, chip1, club_id1) :=
      match competitor_id with
      | none =>
        match db.get_competitor_by_name first_name last_name with
        | some com =>
          (db, com.id,
           (if gender == "" then com.gender else gender),
           (if year.isNone then com.year else year),
           (if chip == "" then com.chip else chip),
           (if club_id.isNone then com.club_id else club_id))
        | none =>
          let (d, cid) := db.add_competitor first_name last_name club_id
            gender year chip
          (d, cid, gender, year, chip, club_id)
      | some cid => (db, cid, gender, year, chip, club_id)
    match db1.get_competitor competitor_id2 with
    | none => .error StoreError.key_error
    | some competitor =>
      let club_id2 := if competitor.club_id.isNone then club_id1
                      else competitor.club_id
      let chip2 := if competitor.chip == "" then chip1 else competitor.chip
      let db2 := db1.update_competitor competitor.id first_name last_name
        gender1 year1 club_id2 chip2
      let (db3, new_id) := db2.add_entry event_id (some competitor.id)
        (some class_id) club_id1 not_competing (some chip1) fields
        { status := status } { start_time := start_time }
      add_or_update_entry_tail eng gender1 year1 class_id status start_time
        result_id new_id ({} : PersonRaceResult) (some chip1) db3
  | some i =>
    match db.get_entry i with
    | none => .error StoreError.key_error
    | some entry =>
      let result0 := entry.result
      let db1 :=
        if result_id.isSome then
          let r := eng.reset entry.result
          if has_punches r then
            let r2 := eng.compute_result r [] {} none none none
            (db.add_entry_result entry.event_id entry.chip r2 {}).1
          else db
        else db
      match entry.competitor_id.bind (fun cid => db1.get_competitor cid) with
      | none => .error StoreError.key_error
      | some competitor =>
        let db2 := db1.update_competitor competitor.id first_name last_name
          gender year competitor.club_id competitor.chip
        let r := { entry.result with status := status }
        let s := { entry.start with start_time := start_time }
        let db3 := db2.update_entry i (some class_id) club_id not_competing
          (some chip) fields r s
        add_or_update_entry_tail eng gender year class_id status start_time
          result_id i result0 (some chip) db3

/-- `add_or_update_entry` (`ooresults/model/entries.py`): the body runs
inside one IMMEDIATE transaction; on success `cached_result.clear_cache`
is called after the transaction has committed, and the entry id alone is
returned. -/
def add_or_update_entry (eng : ResultEngine) (id : Option Nat)
    (event_id : Nat) (competitor_id : Option Nat)
    (first_name last_name gender : String) (year : Option Int)
    (class_id : Nat) (club_id : Option Nat) (not_competing : Bool)
    (chip : String) (fields : List (Nat × String)) (status : ResultStatus)
    (start_time : Option Time) (result_id : Option Int) (db : Db) :
    Db × Except StoreError Nat × List CacheEvent :=
  let (db2, r, tr) := run_transaction db
    (add_or_update_entry_body eng id event_id competitor_id first_name
      last_name gender year class_id club_id not_competing chip fields
      status start_time result_id db)
  match r with
  | .ok entry_id =>
    (db2, .ok entry_id,
     tr ++ [CacheEvent.clear_cache (some event_id) (some entry_id)])
  | .error e => (db2, .error e, tr)

/-- Modelled from the spec: the sentinel `NO_TIME` of
`otypes/result_type.py` (not under the sources), a distinguished
timestamp meaning "punched but unreadable clock". -/
def no_time : Time := -(2 ^ 62)

/-- The time-of-day of a timestamp, in the seconds-since-epoch model:
its remainder modulo the 86400 seconds of a day (`datetime.time ()`). -/
def time_of_day (ts : Time) : Time := ts % 86400

/-- `datetime.combine (event.date, punch_time, local timezone)` in the
seconds model: the event day number times 86400 plus the seconds of the
day. -/
def combine_date_time (date : Int) (t : Time) : Time := date * 86400 + t

/-- Python `list.insert (i, x)`: the index is clamped to the list
bounds. -/
def py_insert (l : List SplitTime) (i : Nat) (x : SplitTime) :
    List SplitTime :=
  l.take i ++ [x] ++ l.drop i

/-- The `selected_row` argument of `edit_entry_result` (a
`Union [int, str]` in the source): the START or FINISH pseudo-row, or
the index of a split row. -/
inductive SelectedRow where
  | start
  | finish
  | row (i : Nat)
  deriving DecidableEq, Repr

/-- The split-row branch of `edit_entry_result`
(`ooresults/model/entries.py`): delete, edit or insert the punch of one
split row; an out-of-range row access raises. -/
def edit_split_times (event : EventType) (result : PersonRaceResult)
    (command control : String) (i : Nat) (punch_time : Option Time) :
    Except StoreError PersonRaceResult :=
  if command == "entr_ep_del" then
    match result.split_times[i]? with
    | none => .error StoreError.index_error
    | some sp =>
      if sp.si_punch_time.isNone then
        .ok { result with split_times := result.split_times.eraseIdx i }
      else
        .ok { result with
          split_times := result.split_times.set i { sp with punch_time := none } }
  else
    let used_t :=
      match punch_time with
      | none => some no_time
      | some t => some (combine_date_time event.date t)
    if command == "entr_ep_edit" then
      match result.split_times[i]? with
      | none => .error StoreError.index_error
      | some sp =>
        .ok { result with
          split_times := result.split_times.set i { sp with punch_time := used_t } }
    else
      .ok { result with
        split_times := py_insert result.split_times i
          { control_code := control, punch_time := used_t } }

/-- The START/FINISH branches of `edit_entry_result`: replace the
punched start or finish time when the submitted time-of-day differs from
the stored one. -/
def edit_pseudo_row (event : EventType) (result : PersonRaceResult)
    (selected_row : SelectedRow) (punch_time : Option Time) :
    PersonRaceResult :=
  match selected_row with
  | SelectedRow.start =>
    (match punch_time with
     | none => { result with punched_start_time := none }
     | some t =>
       match result.punched_start_time with
       | none =>
         { result with punched_start_time := some (combine_date_time event.date t) }
       | some pst =>
         if time_of_day pst != t then
           { result with punched_start_time := some (combine_date_time event.date t) }
         else result)
  | SelectedRow.finish =>
    (match punch_time with
     | none => { result with punched_finish_time := none }
     | some t =>
       match result.punched_finish_time with
       | none =>
         { result with punched_finish_time := some (combine_date_time event.date t) }
       | some pft =>
         if time_of_day pft != t then
           { result with punched_finish_time := some (combine_date_time event.date t) }
         else result)
  | SelectedRow.row _ => result

/-- The transaction body of `edit_entry_result`
(`ooresults/model/entries.py`). -/
def edit_entry_result_body (eng : ResultEngine) (entry_id event_id : Nat)
    (command control : String) (selected_row : SelectedRow)
    (punch_time : Option Time) (db : Db) :
    Except StoreError (Db × EntryType × List CacheEvent) :=
  match db.get_event event_id with
  | none => .error StoreError.key_error
  | some event =>
    match db.get_entry entry_id with
    | none => .error StoreError.key_error
    | some entry =>
      let step : Except StoreError PersonRaceResult :=
        match selected_row with
        | SelectedRow.row i =>
          edit_split_times event entry.result command control i punch_time
        | _ => .ok (edit_pseudo_row event entry.result selected_row punch_time)
      match step with
      | .error e => .error e
      | .ok result =>
        let (controls, class_params) :=
          match db.get_class entry.class_id with
          | some cls =>
            match db.get_course cls.course_id with
            | some course => (course.controls, cls.params)
            | none => (([] : List String), ({} : ClassParams))
          | none => (([] : List String), ({} : ClassParams))
        let result2 := eng.compute_result result controls class_params
          entry.start.start_time entry.year entry.gender
        let db2 := db.update_entry_result entry.id entry.chip result2 entry.start
        .ok (db2, { entry with result := result2 }, [])

/-- `edit_entry_result` (`ooresults/model/entries.py`): the body runs
inside one IMMEDIATE transaction; on success `cached_result.clear_cache`
is called after the transaction has committed. -/
def edit_entry_result (eng : ResultEngine) (entry_id event_id : Nat)
    (command control : String) (selected_row : SelectedRow)
    (punch_time : Option Time) (db : Db) :
    Db × Except StoreError EntryType × List CacheEvent :=
  let (db2, r, tr) := run_transaction db
    (edit_entry_result_body eng entry_id event_id command control
      selected_row punch_time db)
  match r with
  | .ok entry =>
    (db2, .ok entry,
     tr ++ [CacheEvent.clear_cache (some event_id) (some entry_id)])
  | .error e => (db2, .error e, tr)

/-- The model-level `import_entries` (`ooresults/model/entries.py`): the
store import runs inside one IMMEDIATE transaction and the cache for the
event is invalidated after the commit. -/
def model_import_entries (event_id : Nat) (entries : List EntryType)
    (db : Db) : Db × Except StoreError Unit × List CacheEvent :=
  let (db2, r, tr) := run_transaction db
    (Except.ok (db.import_entries event_id entries, (), []))
  match r with
  | .ok _ =>
    (db2, .ok (), tr ++ [CacheEvent.clear_cache (some event_id) none])
  | .error e => (db2, .error e, tr)

/-- `import_iof_result_list` (`ooresults/model/results.py`): resolve the
event by key, delete its entries and classes unless the result list is a
delta, import the parsed entries — all inside one IMMEDIATE transaction —
and invalidate the event's cache after the commit.  The IOF XML codec
(`plugins/iof_result_list.py`, not under the sources) is abstracted into
its parsed output: the entry rows and the delta flag. -/
def import_iof_result_list (event_key : String)
    (entries : List EntryType) (delta : Bool) (db : Db) :
    Db × Except StoreError Unit × List CacheEvent :=
  let body : Except StoreError (Db × Nat × List CacheEvent) :=
    match find_event db event_key with
    | none => .error StoreError.event_not_found
    | some event =>
      let db2 :=
        if delta then db
        else (db.delete_entries event.id).delete_classes event.id
      .ok (db2.import_entries event.id entries, event.id, [])
  let (db2, r, tr) := run_transaction db body
  match r with
  | .ok event_id =>
    (db2, .ok (), tr ++ [CacheEvent.clear_cache (some event_id) none])
  | .error e => (db2, .error e, tr)

/-- Series settings (`Settings`). -/
structure Settings where
  name : String := ""
  nr_of_best_results : Nat := 4
  mode : String := "Proportional 1"
  maximum_points : Nat := 500
  decimal_places : Nat := 3
  deriving DecidableEq, Repr

/-- Rounding to `dp` decimal places (round to nearest). -/
def round_dp (dp : Nat) (x : ℚ) : ℚ := ((round (x * 10 ^ dp) : ℤ) : ℚ) / 10 ^ dp

/-- Modelled from the spec: the per-event points of one runner in series
mode Proportional 1, computed by `build_total_results`
(`ooresults/model/build_results.py`, not under the sources):
`maximum_points × (fastest_time / runner_time)` rounded to
`decimal_places` decimal places. -/
def proportional_1_points (s : Settings) (fastest_time runner_time : ℚ) : ℚ :=
  round_dp s.decimal_places ((s.maximum_points : ℚ) * (fastest_time / runner_time))

/-- The minimum of a nonempty list of running times. -/
def list_min (t : ℚ) (ts : List ℚ) : ℚ := ts.foldl min t

/-- Modelled from the spec: the per-event points of all OK runners of one
class in series mode Proportional 1; the fastest time is the minimum of
the OK runners' times. -/
def class_event_points (s : Settings) (t : ℚ) (ts : List ℚ) : List ℚ :=
  (t :: ts).map (fun ti => proportional_1_points s (list_min t ts) ti)

theorem list_min_le (t : ℚ) (ts : List ℚ) :
    ∀ x ∈ t :: ts, list_min t ts ≤ x := by
  induction ts generalizing t with
  | nil =>
    intro x hx
    simp only [List.mem_singleton] at hx
    simp [list_min, hx]
  | cons u us ih =>
    intro x hx
    simp only [list_min, List.foldl_cons]
    have hmin : List.foldl min (min t u) us ≤ min t u :=
      ih (min t u) (min t u) (List.mem_cons_self _ _)
    rcases List.mem_cons.mp hx with h1 | h1
    · subst h1
      exact le_trans hmin (min_le_left _ _)
    · rcases List.mem_cons.mp h1 with h2 | h2
      · subst h2
        exact le_trans hmin (min_le_right _ _)
      · exact ih (min t u) x (List.mem_cons_of_mem _ h2)

theorem list_min_mem (t : ℚ) (ts : List ℚ) : list_min t ts ∈ t :: ts := by
  induction ts generalizing t with
  | nil => simp [list_min]
  | cons u us ih =>
    simp only [list_min, List.foldl_cons]
    have hih := ih (min t u)
    simp only [list_min] at hih
    rcases List.mem_cons.mp hih with h1 | h1
    · rw [h1]
      rcases le_total t u with hle | hle
      · rw [min_eq_left hle]
        exact List.mem_cons_self _ _
      · rw [min_eq_right hle]
        exact List.mem_cons_of_mem _ (List.mem_cons_self _ _)
    · exact List.mem_cons_of_mem _ (List.mem_cons_of_mem _ h1)

theorem round_rat_mono {x y : ℚ} (h : x ≤ y) : round x ≤ round y := by
  rw [round_eq, round_eq]
  exact Int.floor_le_floor (by linarith)

theorem round_dp_mono (dp : Nat) {x y : ℚ} (h : x ≤ y) :
    round_dp dp x ≤ round_dp dp y := by
  unfold round_dp
  have hp : (0 : ℚ) < 10 ^ dp := by positivity
  have : round (x * 10 ^ dp) ≤ round (y * 10 ^ dp) :=
    round_rat_mono (by nlinarith)
  exact div_le_div_of_nonneg_right (by exact_mod_cast this) hp.le

theorem round_dp_natCast (dp m : Nat) : round_dp dp (m : ℚ) = m := by
  unfold round_dp
  have h1 : ((m : ℚ) * 10 ^ dp) = ((m * 10 ^ dp : ℕ) : ℚ) := by push_cast; ring
  rw [h1, round_natCast]
  have hp : ((10 : ℚ) ^ dp) ≠ 0 := by positivity
  push_cast
  field_simp

/-- True iff some `clear_cache` call is recorded before the first commit
of the trace, i.e. while the transaction is still open. -/
def cleared_before_commit (tr : List CacheEvent) : Bool :=
  (tr.takeWhile (fun e => !(e == CacheEvent.commit))).any
    (fun e => match e with
      | CacheEvent.clear_cache _ _ => true
      | CacheEvent.commit => false)

/-- A concrete result engine instantiating the abstract engine parameter
in witnesses: status is OK exactly when start and finish are known and
every expected control is punched; split statuses become ADDITIONAL; a
reset clears the computed state. -/
def sample_engine : ResultEngine where
  compute_result := fun r controls _params start _year _gender =>
    let st := match start with
      | some s => some s
      | none => r.punched_start_time
    let fin := r.punched_finish_time
    let status :=
      if controls.isEmpty then ResultStatus.finished
      else if st.isSome && fin.isSome
          && controls.all (fun c =>
              r.split_times.any (fun sp => sp.control_code == c)) then
        ResultStatus.ok
      else ResultStatus.missing_punch
    { r with
        status := status, start_time := st, finish_time := fin,
        split_times := r.split_times.map
          (fun sp => { sp with status := some SpStatus.additional }) }
  reset := fun r =>
    { r with status := ResultStatus.inactive, time := none,
             start_time := none, finish_time := none }

theorem sample_engine_ok_no_missing (r : PersonRaceResult)
    (controls : List String) (params : ClassParams) (st : Option Time)
    (year : Option Int) (gender : Option String)
    (h : (sample_engine.compute_result r controls params st year gender).status
      = ResultStatus.ok) :
    missing_controls
      (sample_engine.compute_result r controls params st year gender) = [] := by
  simp only [sample_engine, missing_controls] at *
  split at h
  · exact absurd h (by simp)
  · split at h
    · rename_i hcond
      simp only [Bool.and_eq_true, Option.isSome_iff_exists] at hcond
      obtain ⟨⟨⟨s, hs⟩, f, hf⟩, _⟩ := hcond
      simp [hs, hf, Option.isNone_iff_eq_none, List.filter_eq_nil_iff]
    · exact absurd h (by simp)

/-- The light event of the test fixture. -/
def light_event : EventType :=
  { id := 1, name := "Light Event", key := some "4711", light := true }

/-- The competitor of the light test fixture. -/
def jane : CompetitorType :=
  { id := 1, first_name := "Jane", last_name := "Doe", gender := "F",
    year := some 1990, chip := "9876" }

/-- The light-mode fixture of the repository's own tests: one light event
with key 4711, one course of controls 101, 102, 103, one class Elite
using that course, and the competitor Jane Doe with chip 9876. -/
def light_db : Db :=
  { events := [light_event],
    courses := [{ id := 1, event_id := 1, name := "Bahn A",
                  controls := ["101", "102", "103"] }],
    classes := [{ id := 1, event_id := 1, name := "Elite",
                  short_name := some "E", course_id := some 1 }],
    competitors := [jane],
    entries := [], next_entry_id := 1, next_competitor_id := 2 }

/-- A read-out result punching all three controls with valid start and
finish times. -/
def ok_result : PersonRaceResult :=
  { status := ResultStatus.finished,
    punched_start_time := some 100, punched_finish_time := some 400,
    si_punched_start_time := some 100, si_punched_finish_time := some 400,
    start_time := some 100, finish_time := some 400,
    split_times :=
      [{ control_code := "101", punch_time := some 200,
         si_punch_time := some 200, status := some SpStatus.additional },
       { control_code := "102", punch_time := some 250,
         si_punch_time := some 250, status := some SpStatus.additional },
       { control_code := "103", punch_time := some 300,
         si_punch_time := some 300, status := some SpStatus.additional }] }

/-- A `cardRead` message carrying `ok_result` for chip 9876. -/
def ok_item : CardReaderMessage :=
  { entry_type := "cardRead", entry_time := 0,
    control_card := some "9876", result := some ok_result }

theorem find_event_none_iff (db : Db) (k : String) :
    find_event db k = none ↔ (k = "" ∨ ∀ e ∈ db.events, e.key ≠ some k) := by
  unfold find_event
  rw [List.find?_eq_none]
  constructor
  · intro h
    by_cases hk : k = ""
    · exact Or.inl hk
    · refine Or.inr (fun e he hkey => ?_)
      have h2 := h e he
      simp [hk, hkey] at h2
  · intro h e he
    rcases h with h | h
    · simp [h]
    · simp [h e he]

theorem find_event_some_key {db : Db} {k : String} {ev : EventType}
    (h : find_event db k = some ev) : ev.key = some k ∧ k ≠ "" := by
  unfold find_event at h
  have h2 := List.find?_some h
  simp only [Bool.and_eq_true, bne_iff_ne, ne_eq, beq_iff_eq] at h2
  exact ⟨h2.2, h2.1⟩

theorem store_found_ne_event_not_found (eng : ResultEngine) (event : EventType)
    (item : CardReaderMessage) (db : Db) :
    store_found eng event item db ≠ .error StoreError.event_not_found := by
  unfold store_found
  split
  · split
    · split <;> simp
    · split <;> simp
  · split
    · split <;> simp
    · split <;> simp

theorem assign_found_ne_event_not_found (eng : ResultEngine)
    (event : EventType) (chip fn ln : String) (db : Db) :
    assign_found eng event chip fn ln db ≠ .error StoreError.event_not_found := by
  unfold assign_found
  dsimp only
  repeat' split
  all_goals simp

/-- C6: `store_cardreader_result` and `assign_name_to_light_entry` resolve
the event as one whose stored key equals the given non-empty key; an
empty given key or a key held by no event raises `EventNotFoundError`,
and an empty given key never matches any event, even one whose own stored
key is empty. -/
theorem event_key_resolution (eng : ResultEngine) (k : String)
    (item : CardReaderMessage) (chip fn ln : String) (db : Db) :
    ((store_cardreader_result eng k item db).2.1
        = .error StoreError.event_not_found
      ↔ (k = "" ∨ ∀ e ∈ db.events, e.key ≠ some k))
    ∧ ((assign_name_to_light_entry eng k chip fn ln db).2.1
        = .error StoreError.event_not_found
      ↔ (k = "" ∨ ∀ e ∈ db.events, e.key ≠ some k))
    ∧ (∀ t ev res, (store_cardreader_result eng k item db).2.1
        = .ok (t, ev, res) → ev.key = some k ∧ k ≠ "")
    ∧ (∀ ev res, (assign_name_to_light_entry eng k chip fn ln db).2.1
        = .ok (ev, res) → ev.key = some k ∧ k ≠ "") := by
  refine ⟨?_, ?_, ?_, ?_⟩
  · rw [← find_event_none_iff db k]
    unfold store_cardreader_result run_transaction store_cardreader_result_body
    cases hf : find_event db k with
    | none => simp
    | some ev =>
      cases hs : store_found eng ev item db with
      | ok v => simp [Except.map, hs]
      | error e =>
        have hne : e ≠ StoreError.event_not_found := by
          intro hcontra
          exact store_found_ne_event_not_found eng ev item db (hcontra ▸ hs)
        simp [Except.map, hs, hne]
  · rw [← find_event_none_iff db k]
    unfold assign_name_to_light_entry run_transaction assign_name_to_light_entry_body
    cases hf : find_event db k with
    | none => simp
    | some ev =>
      cases hs : assign_found eng ev chip fn ln db with
      | ok v => simp [Except.map, hs]
      | error e =>
        have hne : e ≠ StoreError.event_not_found := by
          intro hcontra
          exact assign_found_ne_event_not_found eng ev chip fn ln db (hcontra ▸ hs)
        simp [Except.map, hs, hne]
  · intro t ev res h
    unfold store_cardreader_result run_transaction store_cardreader_result_body at h
    cases hf : find_event db k with
    | none => rw [hf] at h; simp at h
    | some ev0 =>
      rw [hf] at h
      dsimp only at h
      cases hs : store_found eng ev0 item db with
      | error e => rw [hs] at h; simp [Except.map] at h
      | ok v =>
        rw [hs] at h
        simp only [Except.map] at h
        have hev : ev = ev0 := by
          have h2 := congrArg (fun (x : Except StoreError (String × EventType × Response)) =>
            match x with
            | .ok p => some p.2.1
            | .error _ => none) h
          simpa using h2.symm
        exact hev ▸ find_event_some_key hf
  · intro ev res h
    unfold assign_name_to_light_entry run_transaction assign_name_to_light_entry_body at h
    cases hf : find_event db k with
    | none => rw [hf] at h; simp at h
    | some ev0 =>
      rw [hf] at h
      dsimp only at h
      cases hs : assign_found eng ev0 chip fn ln db with
      | error e => rw [hs] at h; simp [Except.map] at h
      | ok v =>
        rw [hs] at h
        simp only [Except.map] at h
        have hev : ev = ev0 := by
          have h2 := congrArg (fun (x : Except StoreError (EventType × Response)) =>
            match x with
            | .ok p => some p.1
            | .error _ => none) h
          simpa using h2.symm
        exact hev ▸ find_event_some_key hf

/-- C7: if `store_cardreader_result` raises, the database state after the
call is identical to the state before it: the whole operation runs inside
one IMMEDIATE transaction that is rolled back on error. -/
theorem store_cardreader_result_atomic (eng : ResultEngine)
    (event_key : String) (item : CardReaderMessage) (db : Db)
    (e : StoreError)
    (h : (store_cardreader_result eng event_key item db).2.1 = .error e) :
    (store_cardreader_result eng event_key item db).1 = db := by
  unfold store_cardreader_result run_transaction at h ⊢
  cases hb : store_cardreader_result_body eng event_key item db with
  | ok v =>
    rw [hb] at h
    obtain ⟨db2, a, tr⟩ := v
    simp at h
  | error e2 => rfl

/-- Witness for C7 at a concrete input: on an empty store the call raises
`EventNotFoundError` and the store is unchanged. -/
theorem store_cardreader_result_atomic_witness :
    (store_cardreader_result sample_engine "" ok_item {}).2.1
      = .error StoreError.event_not_found
    ∧ (store_cardreader_result sample_engine "" ok_item {}).1 = {} :=
  ⟨rfl, store_cardreader_result_atomic sample_engine "" ok_item {}
    StoreError.event_not_found rfl⟩

/-- A store holding a single light event whose stored key is the empty
string. -/
def empty_key_db : Db :=
  { events := [{ id := 1, key := some "", light := true }] }

/-- Witness for C6 at a concrete input: an empty given key raises
`EventNotFoundError` in both operations even though an event whose stored
key is itself empty exists. -/
theorem event_key_resolution_witness :
    (store_cardreader_result sample_engine "" ok_item empty_key_db).2.1
      = .error StoreError.event_not_found
    ∧ (assign_name_to_light_entry sample_engine "" "9876" "Jane" "Doe"
        empty_key_db).2.1 = .error StoreError.event_not_found :=
  ⟨((event_key_resolution sample_engine "" ok_item "9876" "Jane" "Doe"
      empty_key_db).1).mpr (Or.inl rfl),
   ((event_key_resolution sample_engine "" ok_item "9876" "Jane" "Doe"
      empty_key_db).2.1).mpr (Or.inl rfl)⟩

/-- C4: in a light-mode event, when some entry of the event already
carries the chip of the incoming card read, the response has
`light_status = second_reading` and the store is not mutated: every
stored entry, competitor and result is identical before and after the
call. -/
theorem light_second_reading_frame (eng : ResultEngine) (k : String)
    (item : CardReaderMessage) (db : Db) (event : EventType)
    (result : PersonRaceResult)
    (hf : find_event db k = some event)
    (hl : event.light = true)
    (ht : item.entry_type = "cardRead")
    (hr : item.result = some result)
    (hc : (db.get_entries event.id).filter
      (fun e => e.chip == item.control_card) ≠ []) :
    store_cardreader_result eng k item db =
      (db, .ok (item.entry_type, event,
        { entryTime := some item.entry_time, eventId := some event.id,
          controlCard := item.control_card, status := some result.status,
          light_status := some "second_reading" }), [CacheEvent.commit]) := by
  unfold store_cardreader_result run_transaction store_cardreader_result_body
  rw [hf]
  dsimp only
  unfold store_found
  rw [hl, ht, hr]
  unfold light_card_read
  have hc2 : ((db.get_entries event.id).filter
      (fun e => e.chip == item.control_card)).isEmpty = false := by
    cases hl2 : (db.get_entries event.id).filter
        (fun e => e.chip == item.control_card) with
    | nil => exact absurd hl2 hc
    | cons a l => rfl
  simp [hc2, Except.map]

/-- Witness for C4 at a concrete input: the fixture store already holds
an entry with chip 9876 and the incoming read for 9876 leaves the store
untouched. -/
def light_db_with_entry : Db :=
  { light_db with
      entries := [{ id := 1, event_id := 1, chip := some "9876",
                    result := { status := ResultStatus.finished } }],
      next_entry_id := 2 }

theorem light_second_reading_frame_witness :
    store_cardreader_result sample_engine "4711" ok_item light_db_with_entry =
      (light_db_with_entry, .ok ("cardRead", light_event,
        { entryTime := some (0 : Time), eventId := some 1,
          controlCard := some "9876",
          status := some ResultStatus.finished,
          light_status := some "second_reading" }), [CacheEvent.commit]) :=
  light_second_reading_frame sample_engine "4711" ok_item light_db_with_entry
    light_event ok_result rfl rfl rfl rfl (by decide)

/-- Whether an `Except` value is a success. -/
def except_is_ok {e a : Type} : Except e a → Bool
  | .ok _ => true
  | .error _ => false

theorem light_card_read_no_commit (eng : ResultEngine) (event : EventType)
    (item : CardReaderMessage) (result : PersonRaceResult) (db : Db) :
    CacheEvent.commit ∉ (light_card_read eng event item result db).2.2 := by
  unfold light_card_read
  dsimp only
  repeat' split
  all_goals simp

theorem standard_card_read_no_commit (eng : ResultEngine) (event : EventType)
    (item : CardReaderMessage) (result : PersonRaceResult) (db : Db) :
    CacheEvent.commit ∉ (standard_card_read eng event item result db).2.2 := by
  unfold standard_card_read standard_unassigned
  dsimp only
  repeat' split
  all_goals simp

theorem store_found_ok_no_commit (eng : ResultEngine) (event : EventType)
    (item : CardReaderMessage) (db : Db)
    (v : Db × Response × List CacheEvent)
    (h : store_found eng event item db = .ok v) :
    CacheEvent.commit ∉ v.2.2 := by
  unfold store_found at h
  split at h
  · split at h
    · split at h
      · exact absurd h (by simp)
      · rename_i result heq
        have hv : light_card_read eng event item result db = v := by
          simpa using h
        rw [← hv]
        exact light_card_read_no_commit eng event item result db
    · split at h
      · have hv : v.2.2 = [] := by
          have := h
          simp only [Except.ok.injEq] at this
          rw [← this]
        simp [hv]
      · have hv : v.2.2 = [] := by
          have := h
          simp only [Except.ok.injEq] at this
          rw [← this]
        simp [hv]
  · split at h
    · split at h
      · exact absurd h (by simp)
      · rename_i result heq
        have hv : standard_card_read eng event item result db = v := by
          simpa using h
        rw [← hv]
        exact standard_card_read_no_commit eng event item result db
    · split at h
      · have hv : v.2.2 = [] := by
          have := h
          simp only [Except.ok.injEq] at this
          rw [← this]
        simp [hv]
      · have hv : v.2.2 = [] := by
          have := h
          simp only [Except.ok.injEq] at this
          rw [← this]
        simp [hv]

theorem add_or_update_entry_tail_trace (eng : ResultEngine) (gender : String)
    (year : Option Int) (class_id : Nat) (status : ResultStatus)
    (start_time : Option Time) (result_id : Option Int) (id : Nat)
    (result0 : PersonRaceResult) (chip0 : Option String) (db : Db)
    (v : Db × Nat × List CacheEvent)
    (h : add_or_update_entry_tail eng gender year class_id status start_time
      result_id id result0 chip0 db = .ok v) :
    v.2.2 = [] := by
  unfold add_or_update_entry_tail at h
  dsimp only at h
  repeat' split at h
  all_goals simp_all
  all_goals (rw [← h])

theorem add_or_update_entry_body_trace (eng : ResultEngine) (id : Option Nat)
    (event_id : Nat) (competitor_id : Option Nat)
    (first_name last_name gender : String) (year : Option Int)
    (class_id : Nat) (club_id : Option Nat) (not_competing : Bool)
    (chip : String) (fields : List (Nat × String)) (status : ResultStatus)
    (start_time : Option Time) (result_id : Option Int) (db : Db)
    (v : Db × Nat × List CacheEvent)
    (h : add_or_update_entry_body eng id event_id competitor_id first_name
      last_name gender year class_id club_id not_competing chip fields
      status start_time result_id db = .ok v) :
    v.2.2 = [] := by
  unfold add_or_update_entry_body at h
  dsimp only at h
  repeat' split at h
  all_goals first
    | exact add_or_update_entry_tail_trace _ _ _ _ _ _ _ _ _ _ _ _ h
    | simp_all

/-- C9: in series mode Proportional 1, every OK runner of a class scores
`maximum_points × (fastest_time / runner_time)` rounded to
`decimal_places`; the fastest OK runner scores exactly `maximum_points`
and every per-event points value is at most `maximum_points`. -/
theorem proportional_1_points_bound (s : Settings) (t : ℚ) (ts : List ℚ)
    (hpos : ∀ x ∈ t :: ts, 0 < x) :
    proportional_1_points s (list_min t ts) (list_min t ts)
      = s.maximum_points
    ∧ (s.maximum_points : ℚ) ∈ class_event_points s t ts
    ∧ ∀ p ∈ class_event_points s t ts, p ≤ s.maximum_points := by
  have hmin_mem := list_min_mem t ts
  have hmin_pos : 0 < list_min t ts := hpos _ hmin_mem
  have hfast : proportional_1_points s (list_min t ts) (list_min t ts)
      = s.maximum_points := by
    unfold proportional_1_points
    rw [div_self hmin_pos.ne', mul_one, round_dp_natCast]
  refine ⟨hfast, ?_, ?_⟩
  · exact List.mem_map.mpr ⟨list_min t ts, hmin_mem, hfast⟩
  · intro p hp
    obtain ⟨x, hx, rfl⟩ := List.mem_map.mp hp
    have hxpos := hpos x hx
    have hle := list_min_le t ts x hx
    have hdiv : list_min t ts / x ≤ 1 := (div_le_one hxpos).mpr hle
    have hmul : (s.maximum_points : ℚ) * (list_min t ts / x)
        ≤ s.maximum_points :=
      mul_le_of_le_one_right (by positivity) hdiv
    calc proportional_1_points s (list_min t ts) x
        ≤ round_dp s.decimal_places (s.maximum_points : ℚ) :=
          round_dp_mono s.decimal_places hmul
      _ = s.maximum_points := round_dp_natCast s.decimal_places s.maximum_points

/-- Witness for C9 at the inputs of the repository's series test: class
Bahn A with OK times 9876 and 3333 under maximum 500 points and three
decimal places; the slower runner scores 168.742 points, the fastest
exactly 500. -/
theorem proportional_1_points_bound_witness :
    (proportional_1_points { maximum_points := 500, decimal_places := 3 }
        (list_min 9876 [3333]) (list_min 9876 [3333]) = 500
      ∧ ((500 : Nat) : ℚ) ∈ class_event_points
        { maximum_points := 500, decimal_places := 3 } 9876 [3333]
      ∧ ∀ p ∈ class_event_points
        { maximum_points := 500, decimal_places := 3 } 9876 [3333], p ≤ 500)
    ∧ class_event_points { maximum_points := 500, decimal_places := 3 }
        9876 [3333] = [(84371 : ℚ)/500, 500] :=
  ⟨proportional_1_points_bound { maximum_points := 500, decimal_places := 3 }
      9876 [3333] (by
        intro x hx
        simp only [List.mem_cons, List.mem_singleton] at hx
        rcases hx with rfl | rfl | hx
        · norm_num
        · norm_num
        · exact absurd hx (List.not_mem_nil x)),
   by norm_num [class_event_points, proportional_1_points, round_dp,
        list_min, round_eq]⟩

/-- C5: in a standard event, when the card read neither duplicates an
assigned entry's SI punches nor satisfies the merge condition, a new
unassigned entry holding the result recomputed with empty controls is
inserted iff no unassigned entry with the same SI punches exists, and the
response error is chosen by the number of assigned entries: zero gives
"Control card unknown", two or more give "There are several entries for
this card", exactly one gives "There are other results for this card". -/
theorem standard_unassigned_behavior (eng : ResultEngine) (k : String)
    (item : CardReaderMessage) (db : Db) (event : EventType)
    (result : PersonRaceResult)
    (hf : find_event db k = some event)
    (hl : event.light = false)
    (ht : item.entry_type = "cardRead")
    (hr : item.result = some result)
    (hA : (assigned_for_card db event.id item.control_card).find?
      (fun e => same_si_punches e.result result) = none)
    (hM : merge_condition (assigned_for_card db event.id item.control_card)
      (unassigned_for_card db event.id item.control_card) result = false) :
    ∃ db' res,
      store_cardreader_result eng k item db =
        (db', .ok (item.entry_type, event, res), [CacheEvent.commit])
      ∧ ((unassigned_for_card db event.id item.control_card).find?
          (fun e => same_si_punches e.result result) = none →
        db' = (db.add_entry_result event.id item.control_card
          (eng.compute_result result [] {} none none none) {}).1)
      ∧ (∀ u, (unassigned_for_card db event.id item.control_card).find?
          (fun e => same_si_punches e.result result) = some u → db' = db)
      ∧ res.error = some
        (if (assigned_for_card db event.id item.control_card).length = 0 then
          "Control card unknown"
        else if 2 ≤ (assigned_for_card db event.id item.control_card).length then
          "There are several entries for this card"
        else "There are other results for this card") := by
  have hstd : standard_card_read eng event item result db =
      standard_unassigned eng event item result
        (assigned_for_card db event.id item.control_card).length
        ((unassigned_for_card db event.id item.control_card).find?
          (fun e => same_si_punches e.result result)) db := by
    unfold standard_card_read
    dsimp only
    rw [hA]
    rcases hAs : assigned_for_card db event.id item.control_card with
      _ | ⟨entry, _ | ⟨e2, rest⟩⟩
    · rfl
    · rw [hAs] at hM
      dsimp only
      rw [hM]
      simp
    · rfl
  have hsf : store_found eng event item db
      = .ok (standard_card_read eng event item result db) := by
    unfold store_found
    rw [hl, ht, hr]
    simp
  unfold store_cardreader_result run_transaction store_cardreader_result_body
  rw [hf]
  dsimp only
  rw [hsf]
  simp only [Except.map]
  rw [hstd]
  unfold standard_unassigned
  dsimp only
  cases hU : (unassigned_for_card db event.id item.control_card).find?
      (fun e => same_si_punches e.result result) with
  | none =>
    dsimp only
    refine ⟨_, _, rfl, fun _ => rfl, ?_, ?_⟩
    · intro u hu
      exact absurd hu (by simp)
    · rcases assigned_for_card db event.id item.control_card with
        _ | ⟨entry, _ | ⟨e2, rest⟩⟩ <;> simp
  | some u0 =>
    dsimp only
    refine ⟨_, _, rfl, ?_, fun u hu => rfl, ?_⟩
    · intro hu
      exact absurd hu (by simp)
    · rcases assigned_for_card db event.id item.control_card with
        _ | ⟨entry, _ | ⟨e2, rest⟩⟩ <;> simp

/-- The standard (non-light) event fixture with key std and no entries. -/
def std_event : EventType :=
  { id := 2, name := "Standard Event", key := some "std" }

/-- A store holding only the standard event. -/
def std_db : Db := { events := [std_event] }

/-- Witness for C5 at a concrete input: a card read for a chip with no
entries at all inserts an unassigned entry and reports "Control card
unknown". -/
theorem standard_unassigned_behavior_witness :
    ∃ db' res,
      store_cardreader_result sample_engine "std" ok_item std_db =
        (db', .ok (ok_item.entry_type, std_event, res), [CacheEvent.commit])
      ∧ db' = (std_db.add_entry_result std_event.id ok_item.control_card
          (sample_engine.compute_result ok_result [] {} none none none)
          {}).1
      ∧ res.error = some "Control card unknown" := by
  obtain ⟨db', res, h1, h2, h3, h4⟩ :=
    standard_unassigned_behavior sample_engine "std" ok_item std_db
      std_event ok_result rfl rfl rfl rfl (by decide) (by decide)
  refine ⟨db', res, h1, h2 (by decide), ?_⟩
  rw [h4]
  decide

theorem light_matching_mem {eng : ResultEngine} {db : Db} {eid : Nat}
    {result : PersonRaceResult} {competitor : CompetitorType}
    {cls : ClassType} {mr : PersonRaceResult}
    (h : (cls, mr) ∈ light_matching eng db eid result competitor) :
    mr.status = ResultStatus.ok
    ∧ ∃ cid course, cls.course_id = some cid
      ∧ db.get_course (some cid) = some course
      ∧ mr = eng.compute_result result course.controls cls.params none
          (truthy_year competitor.year) (some competitor.gender) := by
  unfold light_matching at h
  obtain ⟨cls0, hmem, heq⟩ := List.mem_filterMap.mp h
  cases hc : cls0.course_id with
  | none => rw [hc] at heq; simp at heq
  | some cid =>
    rw [hc] at heq
    dsimp only at heq
    cases hco : db.get_course (some cid) with
    | none => rw [hco] at heq; simp at heq
    | some course =>
      rw [hco] at heq
      dsimp only at heq
      split at heq
      · rename_i hst
        simp only [Option.some.injEq, Prod.mk.injEq] at heq
        obtain ⟨h1, h2⟩ := heq
        subst h1
        subst h2
        exact ⟨by simpa using hst, cid, course, hc, hco, rfl⟩
      · simp at heq

theorem get_entry_fresh (db : Db) (event_id : Nat)
    (competitor_id class_id club_id : Option Nat) (nc : Bool)
    (chip : Option String) (fields : List (Nat × String))
    (result : PersonRaceResult) (start : PersonRaceStart)
    (hids : ∀ e ∈ db.entries, e.id < db.next_entry_id) :
    (db.add_entry event_id competitor_id class_id club_id nc chip fields
        result start).1.get_entry
      (db.add_entry event_id competitor_id class_id club_id nc chip fields
        result start).2
    = some (db.mk_entry db.next_entry_id event_id competitor_id class_id
        club_id nc chip fields result start) := by
  unfold Db.add_entry Db.get_entry
  dsimp only
  rw [List.find?_append]
  have h1 : db.entries.find?
      (fun e => e.id == db.next_entry_id) = none := by
    rw [List.find?_eq_none]
    intro e he
    simp [Nat.ne_of_lt (hids e he)]
  rw [h1]
  simp [Db.mk_entry]

/-- C1: in a light-mode event, for a card read whose chip has no entry in
the event but belongs to a known competitor, an assigned entry with the
matching class and its computed result is created and the response is
`ok_registered` with `missingControls = []` iff exactly one class with a
course yields status OK on an independent copy of the incoming result;
otherwise an unassigned entry (result recomputed with empty controls) is
inserted and the response is `unassigned` with error "No unique matching
course". -/
theorem light_auto_register_iff (eng : ResultEngine) (k : String)
    (item : CardReaderMessage) (db : Db) (event : EventType)
    (result : PersonRaceResult) (competitor : CompetitorType)
    (hf : find_event db k = some event)
    (hl : event.light = true)
    (ht : item.entry_type = "cardRead")
    (hr : item.result = some result)
    (hempty : (db.get_entries event.id).filter
      (fun e => e.chip == item.control_card) = [])
    (hcomp : db.get_competitor_by_chip item.control_card = some competitor)
    (hids : ∀ e ∈ db.entries, e.id < db.next_entry_id)
    (hok : ∀ r cs p st y g,
      (eng.compute_result r cs p st y g).status = ResultStatus.ok →
      missing_controls (eng.compute_result r cs p st y g) = []) :
    ∃ db' res tr,
      store_cardreader_result eng k item db =
        (db', .ok (item.entry_type, event, res), tr)
      ∧ ((light_matching eng db event.id result competitor).length = 1 →
          ∃ cls mr en,
            light_matching eng db event.id result competitor = [(cls, mr)]
            ∧ db'.entries = db.entries ++ [en]
            ∧ en.class_id = some cls.id
            ∧ en.competitor_id = some competitor.id
            ∧ en.result = mr
            ∧ mr.status = ResultStatus.ok
            ∧ res.light_status = some "ok_registered"
            ∧ res.missingControls = some []
            ∧ res.status = some ResultStatus.ok)
      ∧ ((light_matching eng db event.id result competitor).length ≠ 1 →
          ∃ en, db'.entries = db.entries ++ [en]
            ∧ en.class_id = none
            ∧ en.competitor_id = none
            ∧ en.result = eng.compute_result result [] {} none none none
            ∧ res.light_status = some "unassigned"
            ∧ res.error = some "No unique matching course"
            ∧ res.missingControls = none) := by
  have hsf : store_found eng event item db
      = .ok (light_card_read eng event item result db) := by
    unfold store_found
    rw [hl, ht, hr]
    simp
  unfold store_cardreader_result run_transaction store_cardreader_result_body
  rw [hf]
  dsimp only
  rw [hsf]
  simp only [Except.map]
  unfold light_card_read
  dsimp only
  rw [hempty]
  simp only [List.isEmpty_nil, Bool.not_true, Bool.false_eq_true, if_false]
  rw [hcomp]
  dsimp only
  rcases hm : light_matching eng db event.id result competitor with
    _ | ⟨⟨cls, mr⟩, _ | ⟨p2, rest⟩⟩
  · unfold light_unassigned
    dsimp only
    refine ⟨_, _, _, rfl, ?_, ?_⟩
    · intro h1
      simp at h1
    · intro _
      exact ⟨_, rfl, rfl, rfl, rfl, rfl, rfl, rfl⟩
  · obtain ⟨hst, cid, course, hcid, hcourse, hmr⟩ :=
      @light_matching_mem eng db event.id result competitor cls mr
        (by rw [hm]; exact List.mem_singleton.mpr rfl)
    dsimp only
    rw [get_entry_fresh db event.id (some competitor.id) (some cls.id)
      competitor.club_id false item.control_card [] mr {} hids]
    dsimp only
    have hmc : missing_controls mr = [] := by
      rw [hmr]
      exact hok result course.controls cls.params none
        (truthy_year competitor.year) (some competitor.gender)
        (by rw [← hmr]; exact hst)
    refine ⟨_, _, _, rfl, ?_, ?_⟩
    · intro _
      exact ⟨cls, mr, _, rfl, rfl, rfl, rfl, rfl, hst,
        rfl, by rw [hmc], by rw [hst]⟩
    · intro h1
      simp at h1
  · unfold light_unassigned
    dsimp only
    refine ⟨_, _, _, rfl, ?_, ?_⟩
    · intro h1
      simp at h1
    · intro _
      exact ⟨_, rfl, rfl, rfl, rfl, rfl, rfl, rfl⟩

/-- Witness for C1 at the fixture of the repository's light tests: the
read-out for Jane Doe's chip matches the single class Elite and is
auto-registered with an empty missing-control list. -/
theorem light_auto_register_iff_witness :
    ∃ db' res tr cls mr en,
      store_cardreader_result sample_engine "4711" ok_item light_db =
        (db', .ok ("cardRead", light_event, res), tr)
      ∧ light_matching sample_engine light_db 1 ok_result jane = [(cls, mr)]
      ∧ db'.entries = light_db.entries ++ [en]
      ∧ en.class_id = some cls.id
      ∧ res.light_status = some "ok_registered"
      ∧ res.missingControls = some [] := by
  obtain ⟨db', res, tr, h1, h2, h3⟩ :=
    light_auto_register_iff sample_engine "4711" ok_item light_db
      light_event ok_result jane rfl rfl rfl rfl rfl rfl
      (by intro e he; exact absurd he (by simp [light_db]))
      sample_engine_ok_no_missing
  obtain ⟨cls, mr, en, hm, hdb, hcls, _, _, _, hls, hmc, _⟩ := h2 (by rfl)
  exact ⟨db', res, tr, cls, mr, en, h1, hm, hdb, hcls, hls, hmc⟩

theorem filter_ne_id_length (l : List EntryType) (i : Nat)
    (hi : i ∈ l.map (fun e => e.id))
    (hnd : (l.map (fun e => e.id)).Nodup) :
    (l.filter (fun e => !(e.id == i))).length + 1 = l.length := by
  induction l with
  | nil => simp at hi
  | cons a t ih =>
    simp only [List.map_cons, List.nodup_cons] at hnd
    obtain ⟨ha, hndt⟩ := hnd
    simp only [List.map_cons, List.mem_cons] at hi
    rcases hi with hi | hi
    · rw [hi]
      have hfilter : t.filter (fun e => !(e.id == a.id)) = t := by
        rw [List.filter_eq_self]
        intro e he
        have hne : e.id ≠ a.id := fun hc =>
          ha (hc ▸ List.mem_map_of_mem (fun e => e.id) he)
        simp [hne]
      simp [List.filter_cons, hfilter]
    · have hne : (a.id == i) = false := by
        have : a.id ≠ i := by
          intro hcontra
          exact ha (hcontra ▸ hi)
        simp [this]
      simp only [List.filter_cons, hne, Bool.not_false, if_true]
      have := ih hi hndt
      simp only [List.length_cons]
      omega

theorem update_entry_result_ids (db : Db) (i : Nat) (c : Option String)
    (r : PersonRaceResult) (s : PersonRaceStart) :
    (db.update_entry_result i c r s).entries.map (fun e => e.id)
      = db.entries.map (fun e => e.id) := by
  unfold Db.update_entry_result
  dsimp only
  induction db.entries with
  | nil => rfl
  | cons a t ih =>
    simp only [List.map_cons, ih]
    split <;> simp_all

theorem update_entry_result_length (db : Db) (i : Nat) (c : Option String)
    (r : PersonRaceResult) (s : PersonRaceStart) :
    (db.update_entry_result i c r s).entries.length = db.entries.length := by
  unfold Db.update_entry_result
  dsimp only
  rw [List.length_map]

theorem update_delete_length (db : Db) (i : Nat) (c : Option String)
    (r : PersonRaceResult) (s : PersonRaceStart) (j : Nat)
    (hj : j ∈ db.entries.map (fun e => e.id))
    (hnd : (db.entries.map (fun e => e.id)).Nodup) :
    ((db.update_entry_result i c r s).delete_entry j).entries.length + 1
      = db.entries.length := by
  unfold Db.delete_entry
  dsimp only
  rw [filter_ne_id_length _ j
    (by rw [update_entry_result_ids]; exact hj)
    (by rw [update_entry_result_ids]; exact hnd)]
  exact update_entry_result_length db i c r s

/-- C2 amended: in a standard event with exactly one assigned entry for
the card, whose stored result has no punches and does not have the same
SI punches as the incoming result, and with no unassigned entry for the
card or exactly one carrying the same SI punches: the incoming result is
recomputed against the entry's class course and params using the entry's
scheduled start, year and gender, the entry's result is updated with it,
and the matching unassigned entry, when present, is deleted, so the entry
count decreases by one in that case. -/
theorem standard_merge_updates_entry (eng : ResultEngine) (k : String)
    (item : CardReaderMessage) (db : Db) (event : EventType)
    (result : PersonRaceResult) (entry : EntryType) (cl : ClassType)
    (course : CourseType)
    (hf : find_event db k = some event)
    (hl : event.light = false)
    (ht : item.entry_type = "cardRead")
    (hr : item.result = some result)
    (h1 : assigned_for_card db event.id item.control_card = [entry])
    (hA2 : same_si_punches entry.result result = false)
    (hnp : has_punches entry.result = false)
    (hcl : db.get_class entry.class_id = some cl)
    (hco : db.get_course cl.course_id = some course)
    (hnd : (db.entries.map (fun e => e.id)).Nodup) :
    ((unassigned_for_card db event.id item.control_card = []) →
      ∃ res, store_cardreader_result eng k item db =
        (db.update_entry_result entry.id entry.chip
          (eng.compute_result result course.controls cl.params
            entry.start.start_time entry.year entry.gender) entry.start,
         .ok (item.entry_type, event, res),
         [CacheEvent.clear_cache (some event.id) (some entry.id),
          CacheEvent.commit])
      ∧ (store_cardreader_result eng k item db).1.entries.length
          = db.entries.length)
    ∧ (∀ u, unassigned_for_card db event.id item.control_card = [u] →
        same_si_punches u.result result = true →
      ∃ res, store_cardreader_result eng k item db =
        ((db.update_entry_result entry.id entry.chip
          (eng.compute_result result course.controls cl.params
            entry.start.start_time entry.year entry.gender)
          entry.start).delete_entry u.id,
         .ok (item.entry_type, event, res),
         [CacheEvent.clear_cache (some event.id) (some entry.id),
          CacheEvent.commit])
      ∧ (store_cardreader_result eng k item db).1.entries.length + 1
          = db.entries.length) := by
  have hsf : store_found eng event item db
      = .ok (standard_card_read eng event item result db) := by
    unfold store_found
    rw [hl, ht, hr]
    simp
  have hA : (assigned_for_card db event.id item.control_card).find?
      (fun e => same_si_punches e.result result) = none := by
    rw [h1]
    simp [hA2]
  constructor
  · intro hU
    have hM : merge_condition [entry] ([] : List EntryType) result = true := by
      unfold merge_condition
      dsimp only
      rw [hnp]
      rfl
    have hstep : standard_card_read eng event item result db =
        (db.update_entry_result entry.id entry.chip
          (eng.compute_result result course.controls cl.params
            entry.start.start_time entry.year entry.gender) entry.start,
         { entryTime := some item.entry_time, eventId := some event.id,
           controlCard := entry.chip, firstName := entry.first_name,
           lastName := entry.last_name, club := entry.club_name,
           class_name := entry.class_name,
           status := some (eng.compute_result result course.controls
             cl.params entry.start.start_time entry.year entry.gender).status,
           time := reported_time (eng.compute_result result course.controls
             cl.params entry.start.start_time entry.year entry.gender),
           missingControls := some (missing_controls (eng.compute_result
             result course.controls cl.params entry.start.start_time
             entry.year entry.gender)) },
         [CacheEvent.clear_cache (some event.id) (some entry.id)]) := by
      unfold standard_card_read
      dsimp only
      rw [hA, h1, hU, hM]
      dsimp only
      rw [hcl]
      dsimp only
      rw [hco]
      dsimp only
      rfl
    refine ⟨(standard_card_read eng event item result db).2.1, ?_, ?_⟩
    · unfold store_cardreader_result run_transaction store_cardreader_result_body
      rw [hf]
      dsimp only
      rw [hsf]
      simp only [Except.map]
      rw [hstep]
      rfl
    · unfold store_cardreader_result run_transaction store_cardreader_result_body
      rw [hf]
      dsimp only
      rw [hsf]
      simp only [Except.map]
      rw [hstep]
      dsimp only
      exact update_entry_result_length db entry.id entry.chip _ entry.start
  · intro u hU hsame
    have hM : merge_condition [entry] [u] result = true := by
      unfold merge_condition
      dsimp only
      rw [hnp]
      simp [hsame]
    have hfindu : ([u] : List EntryType).find?
        (fun e => same_si_punches e.result result) = some u := by
      simp [hsame]
    have hstep : standard_card_read eng event item result db =
        ((db.update_entry_result entry.id entry.chip
          (eng.compute_result result course.controls cl.params
            entry.start.start_time entry.year entry.gender)
          entry.start).delete_entry u.id,
         { entryTime := some item.entry_time, eventId := some event.id,
           controlCard := entry.chip, firstName := entry.first_name,
           lastName := entry.last_name, club := entry.club_name,
           class_name := entry.class_name,
           status := some (eng.compute_result result course.controls
             cl.params entry.start.start_time entry.year entry.gender).status,
           time := reported_time (eng.compute_result result course.controls
             cl.params entry.start.start_time entry.year entry.gender),
           missingControls := some (missing_controls (eng.compute_result
             result course.controls cl.params entry.start.start_time
             entry.year entry.gender)) },
         [CacheEvent.clear_cache (some event.id) (some entry.id)]) := by
      unfold standard_card_read
      dsimp only
      rw [hA, h1, hU, hM]
      dsimp only
      rw [hcl]
      dsimp only
      rw [hco]
      dsimp only
      rw [hfindu]
      dsimp only
      simp only [beq_self_eq_true, if_true]
    have hu_mem : u.id ∈ db.entries.map (fun e => e.id) := by
      have hu1 : u ∈ unassigned_for_card db event.id item.control_card := by
        rw [hU]
        exact List.mem_singleton.mpr rfl
      unfold unassigned_for_card entries_for_card Db.get_entries at hu1
      have hu2 := List.mem_of_mem_filter (List.mem_of_mem_filter
        (List.mem_of_mem_filter hu1))
      exact List.mem_map_of_mem (fun e => e.id) hu2
    refine ⟨(standard_card_read eng event item result db).2.1, ?_, ?_⟩
    · unfold store_cardreader_result run_transaction store_cardreader_result_body
      rw [hf]
      dsimp only
      rw [hsf]
      simp only [Except.map]
      rw [hstep]
      rfl
    · unfold store_cardreader_result run_transaction store_cardreader_result_body
      rw [hf]
      dsimp only
      rw [hsf]
      simp only [Except.map]
      rw [hstep]
      dsimp only
      exact update_delete_length db entry.id entry.chip _ entry.start u.id
        hu_mem hnd

/-- The sole assigned entry of the standard-mode fixtures: Angela Merkel
registered in class Elite with chip 4711 and an empty stored result. -/
def std_entry : EntryType :=
  { id := 5, event_id := 2, competitor_id := some 1,
    first_name := some "Angela", last_name := some "Merkel",
    class_id := some 10, class_name := some "Elite",
    chip := some "4711", result := {}, start := {} }

/-- The course of the standard-mode fixtures. -/
def course20 : CourseType :=
  { id := 20, event_id := 2, name := "Bahn A",
    controls := ["101", "102", "103"] }

/-- The class of the standard-mode fixtures. -/
def cls10 : ClassType :=
  { id := 10, event_id := 2, name := "Elite", course_id := some 20 }

/-- A standard event holding only the assigned entry for chip 4711. -/
def merge_db : Db :=
  { events := [std_event], courses := [course20], classes := [cls10],
    entries := [std_entry], next_entry_id := 6 }

/-- A card read for chip 4711 carrying no punches and no times at all. -/
def empty_read : CardReaderMessage :=
  { entry_type := "cardRead", entry_time := 0, control_card := some "4711",
    result := some { status := ResultStatus.finished } }

/-- Counterexample for C2 as frozen: a card read with no punches for the
sole assigned entry for the card, whose stored result has no punches and
with no unassigned entry present, satisfies every hypothesis of the
claim, yet the store is left unchanged and the entry's result is not
updated with the recomputed incoming result: the empty incoming result
has the same SI punches as the entry's empty stored result, so the
duplicate-to-assigned branch wins over the merge branch. -/
theorem standard_merge_counterexample :
    assigned_for_card merge_db std_event.id (some "4711") = [std_entry]
    ∧ has_punches std_entry.result = false
    ∧ unassigned_for_card merge_db std_event.id (some "4711") = []
    ∧ (store_cardreader_result sample_engine "std" empty_read merge_db).1
        = merge_db
    ∧ std_entry.result
        ≠ sample_engine.compute_result { status := ResultStatus.finished }
            course20.controls {} std_entry.start.start_time std_entry.year
            std_entry.gender :=
  ⟨rfl, rfl, rfl, rfl, by decide⟩

/-- The unassigned entry of scenario S6, carrying the incoming-equivalent
result for chip 4711. -/
def s6_unassigned : EntryType :=
  { id := 6, event_id := 2, chip := some "4711", result := ok_result }

/-- The S6 store: one assigned entry without punches and one unassigned
entry with the incoming-equivalent result, both for chip 4711. -/
def s6_db : Db :=
  { events := [std_event], courses := [course20], classes := [cls10],
    entries := [std_entry, s6_unassigned], next_entry_id := 7 }

/-- The S6 card read for chip 4711. -/
def s6_item : CardReaderMessage :=
  { entry_type := "cardRead", entry_time := 0, control_card := some "4711",
    result := some ok_result }

/-- Witness for the amended C2 at scenario S6 of the spec: the assigned
entry's result is updated with the recomputed incoming result, the
unassigned duplicate is deleted, and the entry count drops from two to
one. -/
theorem standard_merge_updates_entry_witness :
    ∃ res, store_cardreader_result sample_engine "std" s6_item s6_db =
      ((s6_db.update_entry_result std_entry.id std_entry.chip
        (sample_engine.compute_result ok_result course20.controls
          cls10.params std_entry.start.start_time std_entry.year
          std_entry.gender)
        std_entry.start).delete_entry s6_unassigned.id,
       .ok (s6_item.entry_type, std_event, res),
       [CacheEvent.clear_cache (some std_event.id) (some std_entry.id),
        CacheEvent.commit])
    ∧ (store_cardreader_result sample_engine "std" s6_item s6_db).1.entries.length
        + 1 = s6_db.entries.length :=
  (standard_merge_updates_entry sample_engine "std" s6_item s6_db std_event
    ok_result std_entry cls10 course20 rfl rfl rfl rfl rfl rfl rfl rfl rfl
    (by decide)).2 s6_unassigned rfl rfl

/-- The competitor of the entry-orchestration fixtures. -/
def angela : CompetitorType :=
  { id := 1, first_name := "Angela", last_name := "Merkel",
    club_id := some 3, gender := "F", year := some 1957, chip := "1234567" }

/-- The entry-orchestration fixture: one event, one class with a course,
and the competitor Angela Merkel. -/
def c3_db : Db :=
  { events := [{ id := 1, name := "Event" }],
    courses := [{ id := 20, event_id := 1, controls := ["101", "102", "103"] }],
    classes := [{ id := 10, event_id := 1, name := "Elite",
                  course_id := some 20 }],
    competitors := [angela],
    entries := [], next_entry_id := 1, next_competitor_id := 2 }

/-- One registration call of the scenario of
`test_if_an_already_registered_competitor_is_added_then_not_competing_is_set_to_true`:
register Angela Merkel by name with `not_competing = false`. -/
def c3_call (db : Db) : Db × Except StoreError Nat × List CacheEvent :=
  add_or_update_entry sample_engine none 1 none "Angela" "Merkel" "F"
    (some 1957) 10 none false "4748495" [] ResultStatus.inactive none none db

/-- C3 evaluated at the failing input: registering the same competitor a
second time for the same event returns a bare entry id — the embedded
operation, like the source, has no second return component — and the
second entry is stored with `not_competing = false` exactly as submitted,
with no promotion to `not_competing = true`. -/
theorem add_or_update_entry_no_promotion :
    (c3_call c3_db).2.1 = .ok 1
    ∧ (c3_call ((c3_call c3_db).1)).2.1 = .ok 2
    ∧ ((c3_call ((c3_call c3_db).1)).1.entries.filter
        (fun e => e.id == 2)).map (fun e => e.not_competing) = [false]
    ∧ ((c3_call ((c3_call c3_db).1)).1.entries.filter
        (fun e => e.id == 2)).map (fun e => e.competitor_id) = [some angela.id] :=
  ⟨rfl, rfl, rfl, rfl⟩

theorem mem_entries_update_entry {db : Db} {e : EntryType}
    (he : e ∈ db.entries) {i : Nat} (hne : e.id ≠ i)
    (class_id club_id : Option Nat) (nc : Bool) (chip : Option String)
    (fields : List (Nat × String)) (result : PersonRaceResult)
    (start : PersonRaceStart) :
    e ∈ (db.update_entry i class_id club_id nc chip fields result
      start).entries := by
  unfold Db.update_entry
  dsimp only
  refine List.mem_map.mpr ⟨e, he, ?_⟩
  simp [hne]

theorem mem_entries_update_entry_result {db : Db} {e : EntryType}
    (he : e ∈ db.entries) {i : Nat} (hne : e.id ≠ i)
    (chip : Option String) (result : PersonRaceResult)
    (start : PersonRaceStart) :
    e ∈ (db.update_entry_result i chip result start).entries := by
  unfold Db.update_entry_result
  dsimp only
  refine List.mem_map.mpr ⟨e, he, ?_⟩
  simp [hne]

theorem mem_entries_delete_entry {db : Db} {e : EntryType}
    (he : e ∈ db.entries) {j : Nat} (hne : e.id ≠ j) :
    e ∈ (db.delete_entry j).entries := by
  unfold Db.delete_entry
  dsimp only
  exact List.mem_filter.mpr ⟨he, by simp [hne]⟩

/-- C10: when `add_or_update_entry` updates an existing entry with a
non-null `result_id` (including -1) and the reset copy of the entry's
current result still has punches, the old result is not discarded: the
reset copy recomputed against empty controls and default class params is
stored as a new unassigned entry carrying the entry's chip in the same
event, and it is still present after the entry's own result has been
cleared or replaced. -/
theorem add_or_update_entry_stores_old_result (eng : ResultEngine)
    (i event_id : Nat) (competitor_id : Option Nat)
    (first_name last_name gender : String) (year : Option Int)
    (class_id : Nat) (club_id : Option Nat) (not_competing : Bool)
    (chip : String) (fields : List (Nat × String)) (status : ResultStatus)
    (start_time : Option Time) (result_id : Option Int) (db : Db)
    (entry : EntryType) (j : Nat)
    (hent : db.get_entry i = some entry)
    (hrid : result_id ≠ none)
    (hpunch : has_punches (eng.reset entry.result) = true)
    (hfresh : ∀ e ∈ db.entries, e.id < db.next_entry_id)
    (hridv : ∀ r : Int, result_id = some r → r = -1 ∨
      ∃ e ∈ db.entries, (e.id : Int) = r)
    (hok : (add_or_update_entry eng (some i) event_id competitor_id
      first_name last_name gender year class_id club_id not_competing chip
      fields status start_time result_id db).2.1 = .ok j) :
    ∃ en ∈ (add_or_update_entry eng (some i) event_id competitor_id
      first_name last_name gender year class_id club_id not_competing chip
      fields status start_time result_id db).1.entries,
      en.id = db.next_entry_id
      ∧ en.event_id = entry.event_id
      ∧ en.chip = entry.chip
      ∧ en.competitor_id = none
      ∧ en.class_id = none
      ∧ en.result = eng.compute_result (eng.reset entry.result) [] {}
          none none none
      ∧ en.start = {} := by
  obtain ⟨rv, hrv⟩ : ∃ r, result_id = some r := by
    cases result_id with
    | none => exact absurd rfl hrid
    | some r => exact ⟨r, rfl⟩
  have hentm : entry ∈ db.entries := by
    unfold Db.get_entry at hent
    exact List.mem_of_find?_eq_some hent
  have hid : entry.id = i := by
    unfold Db.get_entry at hent
    have := List.find?_some hent
    simpa using this
  have hi_lt : i < db.next_entry_id := hid ▸ hfresh entry hentm
  unfold add_or_update_entry run_transaction at hok ⊢
  cases hb : add_or_update_entry_body eng (some i) event_id competitor_id
      first_name last_name gender year class_id club_id not_competing chip
      fields status start_time result_id db with
  | error e => rw [hb] at hok; simp at hok
  | ok v =>
    dsimp only
    suffices hsuff : ∃ en ∈ v.1.entries,
        en.id = db.next_entry_id ∧ en.event_id = entry.event_id
        ∧ en.chip = entry.chip ∧ en.competitor_id = none
        ∧ en.class_id = none
        ∧ en.result = eng.compute_result (eng.reset entry.result) [] {}
            none none none
        ∧ en.start = {} by
      exact hsuff
    clear hok
    unfold add_or_update_entry_body at hb
    dsimp only at hb
    rw [hent] at hb
    dsimp only at hb
    rw [hrv] at hb
    simp only [Option.isSome_some, if_true, hpunch] at hb
    set r2 := eng.compute_result (eng.reset entry.result) [] {}
      none none none with hr2
    set db1 := (db.add_entry_result entry.event_id entry.chip r2 {}).1
      with hdb1
    have hnew_mem : db.mk_entry db.next_entry_id entry.event_id none none
        none false entry.chip [] r2 {} ∈ db1.entries := by
      rw [hdb1]
      unfold Db.add_entry_result Db.add_entry
      dsimp only
      exact List.mem_append_right _ (List.mem_singleton.mpr rfl)
    set newEn := db.mk_entry db.next_entry_id entry.event_id none none
      none false entry.chip [] r2 {} with hnewEn
    have hnew_id : newEn.id = db.next_entry_id := rfl
    have hne_i : newEn.id ≠ i := by
      rw [hnew_id]
      omega
    cases hcomp : entry.competitor_id.bind
        (fun cid => db1.get_competitor cid) with
    | none => rw [hcomp] at hb; simp at hb
    | some competitor =>
      rw [hcomp] at hb
      dsimp only at hb
      set db3 := (db1.update_competitor competitor.id first_name last_name
        gender year competitor.club_id competitor.chip).update_entry i
        (some class_id) club_id not_competing (some chip) fields
        { entry.result with status := status }
        { entry.start with start_time := start_time } with hdb3
      have hmem3 : newEn ∈ db3.entries := by
        rw [hdb3]
        exact mem_entries_update_entry hnew_mem hne_i _ _ _ _ _ _ _
      unfold add_or_update_entry_tail at hb
      dsimp only at hb
      split at hb
      · -- the result_id step raised: contradicts success
        simp at hb
      · rename_i step0 db2 result1 chip1 hstep
        simp only [Except.ok.injEq] at hb
        split at hstep
        · -- result_id = some (-1): no source entry is deleted
          simp only [Except.ok.injEq, Prod.mk.injEq] at hstep
          obtain ⟨hdb2, -, -⟩ := hstep
          refine ⟨newEn, ?_, hnew_id, rfl, rfl, rfl, rfl, rfl, rfl⟩
          rw [← hb]
          dsimp only
          rw [← hdb2]
          exact mem_entries_update_entry_result hmem3 hne_i _ _ _
        · -- result_id = some rid with rid different from -1
          rename_i rid hnegone heqrv
          cases hfind : db3.entries.find? (fun e => ((e.id : Int) == rid)) with
          | none =>
            rw [hfind] at hstep
            simp at hstep
          | some re =>
            rw [hfind] at hstep
            simp only [Except.ok.injEq, Prod.mk.injEq] at hstep
            obtain ⟨hdb2, -, -⟩ := hstep
            have hre_id : (re.id : Int) = rid := by
              have := List.find?_some hfind
              simpa using this
            have hrveq : rv = rid := by
              injection heqrv
            have hrid_ne : re.id ≠ newEn.id := by
              rcases hridv rv hrv with h1 | ⟨e0, he0, hide0⟩
              · exact absurd (hrveq ▸ h1) (fun hc => hnegone hc)
              · have he_eq : re.id = e0.id := by
                  have hcast : (re.id : Int) = (e0.id : Int) := by
                    rw [hre_id, ← hrveq, hide0]
                  exact_mod_cast hcast
                rw [he_eq, hnew_id]
                exact Nat.ne_of_lt (hfresh e0 he0)
            refine ⟨newEn, ?_, hnew_id, rfl, rfl, rfl, rfl, rfl, rfl⟩
            rw [← hb]
            dsimp only
            rw [← hdb2]
            exact mem_entries_update_entry_result
              (mem_entries_delete_entry hmem3 (Ne.symm hrid_ne)) hne_i _ _ _
        · -- some rv = none: impossible
          rename_i heqrv
          simp at heqrv

/-- The entry whose result is removed in the C10 witness scenario. -/
def c10_entry : EntryType :=
  { id := 1, event_id := 1, competitor_id := some 1,
    first_name := some "Angela", last_name := some "Merkel",
    class_id := some 10, class_name := some "Elite",
    chip := some "4711", result := ok_result, start := {} }

/-- The C10 witness store: the fixture of `c3_db` plus one assigned entry
holding a result with punches. -/
def c10_db : Db :=
  { events := [{ id := 1, name := "Event" }],
    courses := [{ id := 20, event_id := 1, controls := ["101", "102", "103"] }],
    classes := [{ id := 10, event_id := 1, name := "Elite",
                  course_id := some 20 }],
    competitors := [angela],
    entries := [c10_entry], next_entry_id := 2, next_competitor_id := 2 }

/-- Witness for C10 at a concrete input: removing the result of the entry
(`result_id = -1`) stores the reset old result as a new unassigned entry
with the entry's chip. -/
theorem add_or_update_entry_stores_old_result_witness :
    ∃ en ∈ (add_or_update_entry sample_engine (some 1) 1 none "Angela"
      "Merkel" "F" (some 1957) 10 none false "4711" []
      ResultStatus.missing_punch none (some (-1)) c10_db).1.entries,
      en.id = c10_db.next_entry_id
      ∧ en.event_id = c10_entry.event_id
      ∧ en.chip = c10_entry.chip
      ∧ en.competitor_id = none
      ∧ en.class_id = none
      ∧ en.result = sample_engine.compute_result
          (sample_engine.reset c10_entry.result) [] {} none none none
      ∧ en.start = {} :=
  add_or_update_entry_stores_old_result sample_engine 1 1 none "Angela"
    "Merkel" "F" (some 1957) 10 none false "4711" []
    ResultStatus.missing_punch none (some (-1)) c10_db c10_entry 1 rfl
    (by simp) rfl (by decide)
    (by intro r h; left; exact (Option.some_inj.mp h).symm) rfl

theorem light_card_read_trace_shape (eng : ResultEngine)
    (event : EventType) (item : CardReaderMessage)
    (result : PersonRaceResult) (db : Db) :
    (light_card_read eng event item result db).2.2 = []
    ∨ ∃ eid en, (light_card_read eng event item result db).2.2
        = [CacheEvent.clear_cache (some eid) (some en)] := by
  unfold light_card_read
  dsimp only
  repeat' split
  all_goals first
    | exact Or.inl rfl
    | exact Or.inr ⟨_, _, rfl⟩

theorem standard_card_read_trace_shape (eng : ResultEngine)
    (event : EventType) (item : CardReaderMessage)
    (result : PersonRaceResult) (db : Db) :
    (standard_card_read eng event item result db).2.2 = []
    ∨ ∃ eid en, (standard_card_read eng event item result db).2.2
        = [CacheEvent.clear_cache (some eid) (some en)] := by
  unfold standard_card_read standard_unassigned
  dsimp only
  repeat' split
  all_goals first
    | exact Or.inl rfl
    | exact Or.inr ⟨_, _, rfl⟩

theorem store_found_ok_trace_shape (eng : ResultEngine)
    (event : EventType) (item : CardReaderMessage) (db : Db)
    (v : Db × Response × List CacheEvent)
    (h : store_found eng event item db = .ok v) :
    v.2.2 = [] ∨ ∃ eid en, v.2.2
      = [CacheEvent.clear_cache (some eid) (some en)] := by
  unfold store_found at h
  split at h
  · split at h
    · split at h
      · exact absurd h (by simp)
      · rename_i result heq
        have hv : light_card_read eng event item result db = v := by
          simpa using h
        rw [← hv]
        exact light_card_read_trace_shape eng event item result db
    · split at h
      all_goals
        refine Or.inl ?_
        have hv : v.2.2 = [] := by
          have h2 := h
          simp only [Except.ok.injEq] at h2
          rw [← h2]
        exact hv
  · split at h
    · split at h
      · exact absurd h (by simp)
      · rename_i result heq
        have hv : standard_card_read eng event item result db = v := by
          simpa using h
        rw [← hv]
        exact standard_card_read_trace_shape eng event item result db
    · split at h
      all_goals
        refine Or.inl ?_
        have hv : v.2.2 = [] := by
          have h2 := h
          simp only [Except.ok.injEq] at h2
          rw [← h2]
        exact hv

theorem edit_entry_result_body_trace (eng : ResultEngine)
    (entry_id event_id : Nat) (command control : String)
    (selected_row : SelectedRow) (punch_time : Option Time) (db : Db)
    (v : Db × EntryType × List CacheEvent)
    (h : edit_entry_result_body eng entry_id event_id command control
      selected_row punch_time db = .ok v) :
    v.2.2 = [] := by
  unfold edit_entry_result_body at h
  dsimp only at h
  repeat' split at h
  all_goals simp_all
  all_goals (rw [← h])

/-- Counterexample for C8 as frozen: the card-reader ingestion violates
the claim in both directions.  The light auto-register path commits an
entry-creating mutation whose cache invalidation is recorded before the
commit, inside the open transaction; and the standard unassigned-insert
path commits an entry-creating mutation with no cache invalidation at
all. -/
theorem cache_cleared_inside_open_transaction :
    (store_cardreader_result sample_engine "4711" ok_item light_db).1.entries.length = 1
    ∧ (store_cardreader_result sample_engine "4711" ok_item light_db).2.2
        = [CacheEvent.clear_cache (some 1) (some 1), CacheEvent.commit]
    ∧ cleared_before_commit
        (store_cardreader_result sample_engine "4711" ok_item light_db).2.2 = true
    ∧ (store_cardreader_result sample_engine "std" ok_item std_db).1.entries.length = 1
    ∧ (store_cardreader_result sample_engine "std" ok_item std_db).2.2
        = [CacheEvent.commit] :=
  ⟨rfl, rfl, rfl, rfl, rfl⟩

/-- C8 amended: for the entry add/update, entry edit and import
mutations — `add_or_update_entry`, `edit_entry_result`, the model-level
entry import and `import_iof_result_list` — every committed mutation
invalidates the event's cached ranking, and only after the enclosing
transaction has committed.  Card-reader ingestion
(`store_cardreader_result`) does not satisfy this: a committed ingestion
either records its invalidation before the commit, inside the open
transaction, or commits without any invalidation at all. -/
theorem cache_invalidation_order :
    (∀ (eng : ResultEngine) (id : Option Nat) (event_id : Nat)
        (competitor_id : Option Nat) (fn ln g : String) (y : Option Int)
        (class_id : Nat) (club_id : Option Nat) (nc : Bool) (chip : String)
        (fs : List (Nat × String)) (st : ResultStatus) (stt : Option Time)
        (rid : Option Int) (db : Db),
      except_is_ok (add_or_update_entry eng id event_id competitor_id fn ln
        g y class_id club_id nc chip fs st stt rid db).2.1 = true →
      ∃ i, (add_or_update_entry eng id event_id competitor_id fn ln g y
          class_id club_id nc chip fs st stt rid db).2.1 = .ok i
        ∧ (add_or_update_entry eng id event_id competitor_id fn ln g y
          class_id club_id nc chip fs st stt rid db).2.2
          = [CacheEvent.commit, CacheEvent.clear_cache (some event_id) (some i)])
    ∧ (∀ (eng : ResultEngine) (entry_id event_id : Nat)
        (command control : String) (selected_row : SelectedRow)
        (punch_time : Option Time) (db : Db),
      except_is_ok (edit_entry_result eng entry_id event_id command control
        selected_row punch_time db).2.1 = true →
      (edit_entry_result eng entry_id event_id command control selected_row
        punch_time db).2.2
        = [CacheEvent.commit, CacheEvent.clear_cache (some event_id) (some entry_id)])
    ∧ (∀ (event_id : Nat) (entries : List EntryType) (db : Db),
      (model_import_entries event_id entries db).2.2
        = [CacheEvent.commit, CacheEvent.clear_cache (some event_id) none])
    ∧ (∀ (k : String) (entries : List EntryType) (delta : Bool) (db : Db),
      except_is_ok (import_iof_result_list k entries delta db).2.1 = true →
      ∃ eid, (import_iof_result_list k entries delta db).2.2
        = [CacheEvent.commit, CacheEvent.clear_cache (some eid) none])
    ∧ (∀ (eng : ResultEngine) (k : String) (item : CardReaderMessage) (db : Db),
      except_is_ok (store_cardreader_result eng k item db).2.1 = true →
      (store_cardreader_result eng k item db).2.2 = [CacheEvent.commit]
      ∨ ∃ eid en, (store_cardreader_result eng k item db).2.2
          = [CacheEvent.clear_cache (some eid) (some en), CacheEvent.commit]) := by
  refine ⟨?_, ?_, ?_, ?_, ?_⟩
  · intro eng id event_id competitor_id fn ln g y class_id club_id nc chip
      fs st stt rid db hok
    unfold add_or_update_entry run_transaction at hok ⊢
    cases hb : add_or_update_entry_body eng id event_id competitor_id fn ln
        g y class_id club_id nc chip fs st stt rid db with
    | error e => rw [hb] at hok; simp [except_is_ok] at hok
    | ok v =>
      have htr := add_or_update_entry_body_trace eng id event_id
        competitor_id fn ln g y class_id club_id nc chip fs st stt rid db v hb
      refine ⟨v.2.1, ?_, ?_⟩
      · simp [htr]
      · simp [htr]
  · intro eng entry_id event_id command control selected_row punch_time db hok
    unfold edit_entry_result run_transaction at hok ⊢
    cases hb : edit_entry_result_body eng entry_id event_id command control
        selected_row punch_time db with
    | error e => rw [hb] at hok; simp [except_is_ok] at hok
    | ok v =>
      have htr := edit_entry_result_body_trace eng entry_id event_id
        command control selected_row punch_time db v hb
      simp [htr]
  · intro event_id entries db
    rfl
  · intro k entries delta db hok
    unfold import_iof_result_list run_transaction at hok ⊢
    cases hf : find_event db k with
    | none => rw [hf] at hok; simp [except_is_ok] at hok
    | some event =>
      dsimp only
      exact ⟨event.id, rfl⟩
  · intro eng k item db hok
    unfold store_cardreader_result run_transaction at hok ⊢
    cases hb : store_cardreader_result_body eng k item db with
    | error e => rw [hb] at hok; simp [except_is_ok] at hok
    | ok v =>
      have hshape : v.2.2 = [] ∨ ∃ eid en, v.2.2
          = [CacheEvent.clear_cache (some eid) (some en)] := by
        unfold store_cardreader_result_body at hb
        cases hf : find_event db k with
        | none => rw [hf] at hb; simp at hb
        | some ev =>
          rw [hf] at hb
          dsimp only at hb
          cases hs : store_found eng ev item db with
          | error e => rw [hs] at hb; simp [Except.map] at hb
          | ok w =>
            rw [hs] at hb
            simp only [Except.map, Except.ok.injEq] at hb
            have hw := store_found_ok_trace_shape eng ev item db w hs
            rw [← hb]
            simpa using hw
      rcases hshape with hsh | ⟨eid, en, hsh⟩
      · exact Or.inl (by simp [hsh])
      · exact Or.inr ⟨eid, en, by simp [hsh]⟩

/-- Witness for the amended C8 at concrete inputs: a successful entry
add, a successful entry edit, an entry import and a successful IOF
result-list import all invalidate only after their commit, while the
committed light auto-register ingestion invalidates inside the open
transaction and the committed standard unassigned-insert ingestion does
not invalidate at all. -/
theorem cache_invalidation_order_witness :
    (∃ i, (add_or_update_entry sample_engine none 1 none "A" "B" "" none 1
        none false "c" [] ResultStatus.inactive none none {}).2.1 = .ok i
      ∧ (add_or_update_entry sample_engine none 1 none "A" "B" "" none 1
        none false "c" [] ResultStatus.inactive none none {}).2.2
        = [CacheEvent.commit, CacheEvent.clear_cache (some 1) (some i)])
    ∧ (edit_entry_result sample_engine 1 1 "entr_ep_edit" ""
        SelectedRow.start none c10_db).2.2
        = [CacheEvent.commit, CacheEvent.clear_cache (some 1) (some 1)]
    ∧ (model_import_entries 1 [] ({} : Db)).2.2
        = [CacheEvent.commit, CacheEvent.clear_cache (some 1) none]
    ∧ (∃ eid, (import_iof_result_list "4711" [] true light_db).2.2
        = [CacheEvent.commit, CacheEvent.clear_cache (some eid) none])
    ∧ ((store_cardreader_result sample_engine "4711" ok_item light_db).2.2
          = [CacheEvent.commit]
        ∨ ∃ eid en, (store_cardreader_result sample_engine "4711" ok_item
            light_db).2.2
          = [CacheEvent.clear_cache (some eid) (some en), CacheEvent.commit])
    ∧ ((store_cardreader_result sample_engine "std" ok_item std_db).2.2
          = [CacheEvent.commit]
        ∨ ∃ eid en, (store_cardreader_result sample_engine "std" ok_item
            std_db).2.2
          = [CacheEvent.clear_cache (some eid) (some en), CacheEvent.commit]) :=
  ⟨cache_invalidation_order.1 sample_engine none 1 none "A" "B" "" none 1
      none false "c" [] ResultStatus.inactive none none {} rfl,
   cache_invalidation_order.2.1 sample_engine 1 1 "entr_ep_edit" ""
      SelectedRow.start none c10_db rfl,
   cache_invalidation_order.2.2.1 1 [] {},
   cache_invalidation_order.2.2.2.1 "4711" [] true light_db rfl,
   cache_invalidation_order.2.2.2.2 sample_engine "4711" ok_item light_db rfl,
   cache_invalidation_order.2.2.2.2 sample_engine "std" ok_item std_db rfl⟩

end OOR
